import Mathlib

/-!
# Windshaft: blend renderer factory, torque renderer and filter engine

A shallow embedding of

* `lib/windshaft/renderers/blend/factory.js` (`BlendFactory.getRenderer`, the two
  tile-error strategies and `getMapnikLayersFromFilter`),
* `lib/windshaft/renderers/torque/renderer.js` (`cdb_XYZ_Resolution`, `cdb_XYZ_Extent`,
  `stepFilter`, the query callback of `getTileData`, `getMetadata`), and
* the filter engine of the map configuration, whose code is not among the sources and which is
  modelled from the spec and from `test/unit/mapconfig_filters.test.js`,

followed by the properties proved about them.  Numbers are exact rationals; for the tile
geometry there is, next to the exact `cdb_XYZ_Extent`, the same computation with every result
rounded to a double (`cdb_XYZ_Extent_double`).  JavaScript objects are property lists living in an
explicit heap.
-/

set_option autoImplicit false

namespace Windshaft

/-! ## JavaScript values and objects -/

/-- JavaScript primitive values, as far as the embedded code inspects them; a number is a finite
number, taken exactly. -/
inductive JsVal where
  | undefined
  | null
  | bool (b : Bool)
  | num (n : ℚ)
  | str (s : String)
  deriving DecidableEq, Repr

/-- An object is the list of its property writes, oldest first: a later write of the same
key shadows the earlier ones. -/
abbrev Obj := List (String × JsVal)

/-- Reading `o[k]`: the latest write of `k`, if any. -/
def Obj.get : Obj → String → Option JsVal
  | [], _ => none
  | (k', v) :: rest, k =>
    match Obj.get rest k with
    | some w => some w
    | none => if k' = k then some v else none

/-- The assignment `o[k] = v`. -/
def Obj.set (o : Obj) (k : String) (v : JsVal) : Obj := o ++ [(k, v)]

/-- Property access `o.k` as JavaScript evaluates it: a missing property reads `undefined`. -/
def Obj.prop (o : Obj) (k : String) : JsVal := (Obj.get o k).getD JsVal.undefined

/-- The heap of objects; a reference is an index into it. -/
abbrev Heap := List Obj

/-- Dereferencing; a dangling reference reads as the empty object. -/
def Heap.read (h : Heap) (r : Nat) : Obj := h.getD r []

/-- Allocation of a new object (an object literal): the new reference and the new heap. -/
def Heap.alloc (h : Heap) (o : Obj) : Nat × Heap := (h.length, h ++ [o])

/-- The assignment `r[k] = v` through a reference. -/
def Heap.setProp (h : Heap) (r : Nat) (k : String) (v : JsVal) : Heap :=
  h.set r (Obj.set (Heap.read h r) k v)

/-- The library call `Object.assign(target, ...sources)`: the sources are taken in order, each is
read when its turn comes, and every property write it holds is repeated on the target, so that
the target ends up reading as the source does on each key of the source. -/
def objectAssign (h : Heap) (target : Nat) (sources : List Nat) : Heap :=
  sources.foldl
    (fun h1 s => (Heap.read h1 s).foldl (fun h2 kv => Heap.setProp h2 target kv.1 kv.2) h1) h

/-! ## Errors, tiles and the tile-error strategies of the blend factory -/

/-- An error object, as far as the strategies look at it: its `message` (absent, or a string as
`new Error(msg)` makes it) and its `code` (any value). -/
structure JsError where
  message : Option String
  code : JsVal
  deriving DecidableEq, Repr

/-- The constructor call `new Error(msg)`. -/
def JsError.new (msg : String) : JsError := ⟨some msg, JsVal.undefined⟩

/-- A tile payload: either the module constant `EMPTY_IMAGE_BUFFER` (the pre-encoded blank
256x256 png) or some other buffer. -/
inductive Tile where
  | EMPTY_IMAGE_BUFFER
  | buffer (bytes : List Nat)
  deriving DecidableEq, Repr

/-- The arguments with which a tile callback `callback(err, tile, headers, stats)` is called;
`none` stands for `null` or a missing argument. -/
structure TileCallbackArgs where
  err : Option JsError
  tile : Option Tile
  headers : Option Obj
  stats : Option Obj
  deriving DecidableEq, Repr

/-- The function `onTileErrorStrategyHttpRenderer` of `blend/factory.js`. -/
def onTileErrorStrategyHttpRenderer (err : JsError) (tile : Option Tile) (headers : Option Obj)
    (stats : Option Obj) (_format : String) : TileCallbackArgs :=
  if err.code = JsVal.str "ETIMEDOUT" then
    ⟨some err, tile, headers, stats⟩
  else
    ⟨none, some Tile.EMPTY_IMAGE_BUFFER, some [("Content-Type", JsVal.str "image/png")],
      some (stats.getD [])⟩

/-- Does the text start with the pattern, letters compared without regard to ASCII case. -/
def matchHere : List Char → List Char → Bool
  | [], _ => true
  | _ :: _, [] => false
  | p :: ps, c :: cs => (c.toLower == p.toLower) && matchHere ps cs

/-- The regular-expression search for a literal pattern with the `i` flag: the first position of
the text at which the pattern matches. -/
def regexSearch (pat : List Char) : List Char → Bool
  | [] => matchHere pat []
  | c :: cs => matchHere pat (c :: cs) || regexSearch pat cs

/-- The test `err.message && err.message.match(/coordinates out of range/i)`. -/
def isCoordinatesOutOfRange (err : JsError) : Bool :=
  match err.message with
  | none => false
  | some m => (m != "") && regexSearch "coordinates out of range".toList m.toList

/-- The function `onTileErrorStrategy` of `blend/factory.js`. -/
def onTileErrorStrategy (err : JsError) (tile : Option Tile) (headers : Option Obj)
    (stats : Option Obj) (_format : String) : TileCallbackArgs :=
  if isCoordinatesOutOfRange err then
    ⟨none, some Tile.EMPTY_IMAGE_BUFFER, some [("Content-Type", JsVal.str "image/png")],
      some (stats.getD [])⟩
  else
    ⟨some err, tile, headers, stats⟩

/-- The text contains an occurrence of the pattern up to ASCII letter case. -/
def ContainsIgnoreCase (pat text : List Char) : Prop :=
  ∃ pre mid post : List Char,
    text = pre ++ mid ++ post ∧ mid.map Char.toLower = pat.map Char.toLower

/-! ## The step filter of the torque renderer -/

/-- The function `stepFilter` of `torque/renderer.js`. -/
def stepFilter (attrs : Obj) : String :=
  if Obj.prop attrs "stepSelect" ≠ JsVal.undefined then
    "AND floor((\x7bcolumn_conv\x7d - \x7bstart\x7d)/\x7bstep\x7d) " ++
      "BETWEEN \x7bstepSelect\x7d - \x7bstepOffset\x7d + 1 AND \x7bstepSelect\x7d "
  else
    ""

/-! ## The blend factory: dispatching the layers of a map configuration -/

/-- The two functions a renderer can be given as `onTileErrorStrategy`. -/
inductive ErrorStrategy where
  | http
  | default
  deriving DecidableEq, Repr

/-- The function an `ErrorStrategy` value stands for. -/
def ErrorStrategy.run : ErrorStrategy → JsError → Option Tile → Option Obj → Option Obj →
    String → TileCallbackArgs
  | ErrorStrategy.http => onTileErrorStrategyHttpRenderer
  | ErrorStrategy.default => onTileErrorStrategy

/-- The object `rendererOptions` built for one layer. -/
structure RendererOptions where
  limits : Option Obj
  onTileErrorStrategy : ErrorStrategy
  deriving DecidableEq, Repr

/-- One call `this.rendererFactory.getRenderer(mapConfig, rendererParams, rendererOptions, cb)`:
the contents of `rendererParams` at the time of the call, and the options. -/
structure Request where
  rendererParams : Obj
  rendererOptions : RendererOptions
  deriving DecidableEq, Repr

/-- What the renderer provider passes to its callback `(err, renderer)`; a renderer is named by a
number, `none` is a missing (falsy) renderer. -/
structure ProviderReply where
  err : Option JsError
  renderer : Option Nat
  deriving DecidableEq, Repr

/-- A settled promise of a layer renderer. -/
inductive Settled where
  | resolved (renderer : Option Nat)
  | rejected (err : JsError)
  deriving DecidableEq, Repr

/-- A composite renderer `new Renderer(renderers)` over the given layer renderers. -/
structure BlendRenderer where
  renderers : List Nat
  deriving DecidableEq, Repr

/-- The function `getMapnikLayersFromFilter`: the mapnik indices of the filtered list joined
with commas. -/
def getMapnikLayersFromFilter (layerType : Nat → String) (filteredLayers : List Nat) : String :=
  String.intercalate ","
    ((filteredLayers.filter (fun layerIndex => layerType layerIndex == "mapnik")).map toString)

/-- The state the executors of the layer promises share: the heap and the closure variable
`hasMapnikLayer`. -/
structure DispatchState where
  heap : Heap
  hasMapnikLayer : Bool
  deriving DecidableEq, Repr

/-- The executor of the promise of one layer, up to the point where it either resolves at once
(`none`) or calls the renderer provider (`some` request). -/
def dispatchLayer (layerType : Nat → String) (filteredLayers : List Nat) (params : Nat)
    (limits : Option Obj) (st : DispatchState) (layerIndex : Nat) :
    DispatchState × Option Request :=
  -- const rendererParams = Object.assign({}, params, {layer: layerIndex});
  let (target, h1) := Heap.alloc st.heap []
  let (literal, h2) := Heap.alloc h1 [("layer", JsVal.num layerIndex)]
  let h3 := objectAssign h2 target [params, literal]
  let type := layerType layerIndex
  let isMapnikLayer := type == "mapnik"
  if isMapnikLayer && st.hasMapnikLayer then
    (⟨h3, st.hasMapnikLayer⟩, none)
  else
    let h4 :=
      if isMapnikLayer then
        Heap.setProp h3 target "layer"
          (JsVal.str (getMapnikLayersFromFilter layerType filteredLayers))
      else h3
    let rendererOptions : RendererOptions :=
      ⟨limits, if type == "http" then ErrorStrategy.http else ErrorStrategy.default⟩
    (⟨h4, if isMapnikLayer then true else st.hasMapnikLayer⟩,
      some ⟨Heap.read h4 target, rendererOptions⟩)

/-- The loop `filteredLayers.map(layerIndex => new Promise(...))`: the executors run one after the
other, in list order. The second argument is the whole filtered list, the last the part of it
still to visit. -/
def dispatchLayers (layerType : Nat → String) (filteredLayers : List Nat) (params : Nat)
    (limits : Option Obj) : DispatchState → List Nat → DispatchState × List (Option Request)
  | st, [] => (st, [])
  | st, layerIndex :: rest =>
    let step := dispatchLayer layerType filteredLayers params limits st layerIndex
    let tail := dispatchLayers layerType filteredLayers params limits step.1 rest
    (tail.1, step.2 :: tail.2)

/-- What `dispatchLayers` does for each layer, read off without the heap: `shared` is the content
of the object `params`, the flag is `hasMapnikLayer`. `dispatchLayers_eq` proves that this is
what `dispatchLayers` computes when `params` is a live reference. -/
def dispatchSlots (layerType : Nat → String) (filteredLayers : List Nat) (shared : Obj)
    (limits : Option Obj) : Bool → List Nat → List (Option Request)
  | _, [] => []
  | hasMapnikLayer, layerIndex :: rest =>
    if layerType layerIndex == "mapnik" then
      (if hasMapnikLayer then none
        else some ⟨shared ++ [("layer", JsVal.num layerIndex),
            ("layer", JsVal.str (getMapnikLayersFromFilter layerType filteredLayers))],
          ⟨limits, ErrorStrategy.default⟩⟩) ::
        dispatchSlots layerType filteredLayers shared limits true rest
    else
      some ⟨shared ++ [("layer", JsVal.num layerIndex)],
        ⟨limits, if layerType layerIndex == "http" then ErrorStrategy.http
          else ErrorStrategy.default⟩⟩ ::
        dispatchSlots layerType filteredLayers shared limits hasMapnikLayer rest

/-- How the promise of one layer settles: a layer that made no request resolves empty; the reply
of the provider rejects the promise when it carries an error and resolves it otherwise. -/
def layerPromise (provider : Request → ProviderReply) : Option Request → Settled
  | none => Settled.resolved none
  | some request =>
    match (provider request).err with
    | some err => Settled.rejected err
    | none => Settled.resolved (provider request).renderer

/-- The library call `Promise.all`: the values in list order when every promise resolves, a
rejection as soon as one promise is rejected (of several rejections the one of the earliest
layer is taken here; which one comes first in time is up to the provider). -/
def promiseAll : List Settled → Except JsError (List (Option Nat))
  | [] => Except.ok []
  | Settled.rejected err :: _ => Except.error err
  | Settled.resolved renderer :: rest =>
    match promiseAll rest with
    | Except.error err => Except.error err
    | Except.ok renderers => Except.ok (renderer :: renderers)

/-- What a call of `BlendFactory.getRenderer` has done when its callback is called: the
arguments of the callback (an error, or a composite renderer), the requests made to the renderer
provider in order, and the heap. -/
structure Outcome where
  callback : Except JsError BlendRenderer
  requests : List Request
  heap : Heap

/-- The method `BlendFactory.getRenderer`. The result of `layersFilter(mapConfig, layer)` (a list
of layer indices, or a thrown error), the method `mapConfig.layerType` and the renderer provider
`this.rendererFactory.getRenderer` are arguments; `params` is the reference `options.params`. -/
def getRenderer (layerType : Nat → String) (layersFilter : Except JsError (List Nat))
    (provider : Request → ProviderReply) (heap : Heap) (params : Nat) (limits : Option Obj) :
    Outcome :=
  match layersFilter with
  | Except.error err => ⟨Except.error err, [], heap⟩
  | Except.ok filteredLayers =>
    if filteredLayers.length = 0 then
      ⟨Except.error (JsError.new "No renderers"), [], heap⟩
    else
      let dispatched :=
        dispatchLayers layerType filteredLayers params limits ⟨heap, false⟩ filteredLayers
      let layerRenderers := dispatched.2.map (layerPromise provider)
      let result : Except JsError BlendRenderer :=
        match promiseAll layerRenderers with
        | Except.error err => Except.error err
        | Except.ok renderers =>
          if renderers.length = 0 then
            Except.error (JsError.new "No renderers")
          else
            Except.ok ⟨renderers.filterMap id⟩
      ⟨result, dispatched.2.filterMap id, dispatched.1.heap⟩

/-! ## The tile geometry of the torque renderer -/

/-- The function `cdb_XYZ_Resolution` inside `getTileData`, in exact arithmetic. -/
def cdb_XYZ_Resolution (tile_size tile_max_geosize : ℚ) (z : ℕ) : ℚ :=
  let full_resolution := tile_max_geosize / tile_size
  full_resolution / 2 ^ z

/-- The object returned by `cdb_XYZ_Extent`. -/
structure Extent where
  xmin : ℚ
  ymin : ℚ
  xmax : ℚ
  ymax : ℚ
  b_xmin : ℚ
  b_ymin : ℚ
  b_xmax : ℚ
  b_ymax : ℚ
  b_size : ℚ
  deriving DecidableEq

/-- The function `cdb_XYZ_Extent` inside `getTileData`, in exact arithmetic; the closure
variables `tile_size`, `tile_max_geosize`, `buffer_size` and `attrs.resolution` are arguments. -/
def cdb_XYZ_Extent (tile_size tile_max_geosize buffer_size attrs_resolution : ℚ)
    (x y : ℤ) (z : ℕ) : Extent :=
  let initial_resolution := cdb_XYZ_Resolution tile_size tile_max_geosize 0
  let origin_shift := (initial_resolution * tile_size) / 2
  let pixres := initial_resolution / 2 ^ z
  let tile_geo_size := tile_size * pixres
  let buffer := buffer_size / 2
  let xmin := -origin_shift + x * tile_geo_size
  let xmax := -origin_shift + (x + 1) * tile_geo_size
  let ymin := origin_shift - y * tile_geo_size
  let ymax := origin_shift - (y + 1) * tile_geo_size
  { xmin := xmin
    ymin := ymin
    xmax := xmax
    ymax := ymax
    b_xmin := xmin - (pixres * buffer)
    b_ymin := ymin + (pixres * buffer)
    b_xmax := xmax + (pixres * buffer)
    b_ymax := ymax - (pixres * buffer)
    b_size := buffer / attrs_resolution }

/-! ## The tile geometry in the double arithmetic of JavaScript -/

/-- Rounding of a rational to the nearest integer, a tie going to the even one. -/
def roundHalfEven (r : ℚ) : ℤ :=
  let f : ℤ := Int.floor r
  if r - f < 1 / 2 then f
  else if 1 / 2 < r - f then f + 1
  else if f % 2 = 0 then f else f + 1

/-- The rounding of an exact result to a JavaScript number (IEEE 754 binary64, round to nearest,
ties to even): with `2^e <= |q| < 2^(e+1)` the result is the nearest multiple of `2^(e-52)`, so
that 53 significant bits are kept. The exponent is not bounded here: this is the rounding of
binary64 wherever the result neither overflows nor falls into the subnormal range. -/
def roundDouble (q : ℚ) : ℚ :=
  if q = 0 then 0
  else
    let ulp : ℚ := 2 ^ (Int.log 2 |q| - 52)
    roundHalfEven (q / ulp) * ulp

/-- The function `cdb_XYZ_Resolution` inside `getTileData`, the result of every operation
rounded by `fl`. -/
def cdb_XYZ_Resolution_rounded (fl : ℚ → ℚ) (tile_size tile_max_geosize : ℚ) (z : ℕ) : ℚ :=
  let full_resolution := fl (tile_max_geosize / tile_size)
  fl (full_resolution / fl (2 ^ z))

/-- The function `cdb_XYZ_Extent` inside `getTileData`, the result of every operation rounded by
`fl`, in the order in which JavaScript evaluates them; negation is exact. With no rounding it is
`cdb_XYZ_Extent`. -/
def cdb_XYZ_Extent_rounded (fl : ℚ → ℚ)
    (tile_size tile_max_geosize buffer_size attrs_resolution : ℚ) (x y : ℤ) (z : ℕ) : Extent :=
  let initial_resolution := cdb_XYZ_Resolution_rounded fl tile_size tile_max_geosize 0
  let origin_shift := fl (fl (initial_resolution * tile_size) / 2)
  let pixres := fl (initial_resolution / fl (2 ^ z))
  let tile_geo_size := fl (tile_size * pixres)
  let buffer := fl (buffer_size / 2)
  let xmin := fl (-origin_shift + fl (x * tile_geo_size))
  let xmax := fl (-origin_shift + fl (fl (x + 1) * tile_geo_size))
  let ymin := fl (origin_shift - fl (y * tile_geo_size))
  let ymax := fl (origin_shift - fl (fl (y + 1) * tile_geo_size))
  { xmin := xmin
    ymin := ymin
    xmax := xmax
    ymax := ymax
    b_xmin := fl (xmin - fl (pixres * buffer))
    b_ymin := fl (ymin + fl (pixres * buffer))
    b_xmax := fl (xmax + fl (pixres * buffer))
    b_ymax := fl (ymax - fl (pixres * buffer))
    b_size := fl (buffer / attrs_resolution) }

/-- The function `cdb_XYZ_Extent` as the code computes it, in double arithmetic. -/
def cdb_XYZ_Extent_double (tile_size tile_max_geosize buffer_size attrs_resolution : ℚ)
    (x y : ℤ) (z : ℕ) : Extent :=
  cdb_XYZ_Extent_rounded roundDouble tile_size tile_max_geosize buffer_size attrs_resolution x y z

/-! ## The torque renderer: running the tile query, and the metadata -/

/-- Truthiness of a value, as `if (v)` and `v ? a : b` test it. -/
def JsVal.truthy : JsVal → Bool
  | JsVal.undefined => false
  | JsVal.null => false
  | JsVal.bool b => b
  | JsVal.num n => n != 0
  | JsVal.str s => s != ""

/-- What the query executor `sql` passes to its callback `(err, data)`: an error, or no error and
the rows `data.rows`. -/
structure QueryReply where
  err : Option JsError
  rows : List Obj
  deriving DecidableEq, Repr

/-- The arguments with which `getTileData` calls its callback `(err, rows, headers, stats)`;
`none` stands for `null` or a missing argument. -/
structure TileDataCallbackArgs where
  err : Option JsError
  rows : Option (List Obj)
  headers : Option Obj
  stats : Option Obj
  deriving DecidableEq, Repr

/-- What a call of `getTileData` has done when its callback is called: the queries handed to the
executor, in order, and the arguments of the callback. -/
structure TileDataOutcome where
  queries : List String
  callback : TileDataCallbackArgs
  deriving DecidableEq, Repr

/-- The end of the method `TorqueRenderer.getTileData`: the call `sql(query, function (err, data)
...)`. The query text (the work of the formatting helpers `format` and
`SubstitutionTokens.replace`) and the timings `timer.getTimes()` are arguments. On an error with a
truthy `message` the message of that error object is overwritten with the prefixed one. -/
def getTileData (sql : String → QueryReply) (query : String) (times : Obj) : TileDataOutcome :=
  let reply := sql query
  match reply.err with
  | some err =>
    let annotated : JsError :=
      match err.message with
      | some message =>
        if message ≠ "" then ⟨some ("TorqueRenderer: " ++ message), err.code⟩ else err
      | none => err
    ⟨[query], ⟨some annotated, none, none, none⟩⟩
  | none =>
    ⟨[query],
      ⟨none, some reply.rows, some [("Content-Type", JsVal.str "application/json")], some times⟩⟩

/-- The fields of `this.attrs` that `getMetadata` reads; the numeric ones hold numbers, taken in
exact arithmetic. The field `end` is written `end_`. -/
structure TorqueAttrs where
  start : ℚ
  end_ : ℚ
  steps : ℚ
  data_steps : ℚ
  is_time : JsVal

/-- The object `meta` that `getMetadata` builds. -/
structure TorqueMetadata where
  start : ℚ
  end_ : ℚ
  steps : ℚ
  data_steps : ℤ
  column_type : String
  deriving DecidableEq

/-- The conversion `ToInt32` behind `x >> 0`, on a finite number: the fraction is dropped (towards
zero), and the integer is taken modulo `2^32` into the range from `-2^31` to `2^31 - 1`. -/
def toInt32 (x : ℚ) : ℤ :=
  let truncated : ℤ := if 0 ≤ x then Int.floor x else Int.ceil x
  let wrapped : ℤ := truncated % 2 ^ 32
  if 2 ^ 31 ≤ wrapped then wrapped - 2 ^ 32 else wrapped

/-- What a call of `getMetadata` has done when its callback is called: the queries handed to the
executor (it makes none) and the arguments `(err, meta)` of the callback. -/
structure MetadataOutcome where
  queries : List String
  err : Option JsError
  metadata : TorqueMetadata

/-- The method `TorqueRenderer.getMetadata`. -/
def getMetadata (attrs : TorqueAttrs) : MetadataOutcome :=
  let a := attrs
  ⟨[], none,
    { start := a.start * 1000
      end_ := a.end_ * 1000
      steps := a.steps
      data_steps := toInt32 a.data_steps
      column_type := if a.is_time.truthy then "date" else "number" }⟩

/-! ## The filter engine of the map configuration

The code of the filter engine (`lib/windshaft/models/mapconfig` with its widgets and filters) is
not among the sources; only its unit test `test/unit/mapconfig_filters.test.js` is. The
definitions of this section are modelled from the spec (sections 3 and 4.1) and agree with the
strings that the test expects. -/

/-- Modelled from the spec: the `type` of a Widget, "aggregation" (category) or "histogram"
(range); the widget code is missing from the sources. The spec gives no text for the query of a
histogram, only that it is built around the layer's query: the text that goes before that query
and the text that goes after it belong to the histogram. -/
inductive WidgetType where
  | aggregation
  | histogram (queryBefore queryAfter : String)
  deriving DecidableEq, Repr

/-- Modelled from the spec: a Widget, with its `type` and the `column` of its options; the widget
code is missing from the sources. -/
structure Widget where
  type : WidgetType
  column : String
  deriving DecidableEq, Repr

/-- Modelled from the spec: a Layer, with its `type`, the base `sql` of its options and its
widgets keyed by widget id; the model `mapconfig` is missing from the sources. -/
structure Layer where
  type : String
  sql : String
  widgets : List (String × Widget)
  deriving DecidableEq, Repr

/-- Modelled from the spec: the filter arguments given for one widget, optional `accept` and
`reject` arrays for a category filter and `min` and `max` for a range filter; the filter code is
missing from the sources. -/
structure FilterArgs where
  accept : Option (List String)
  reject : Option (List String)
  min : JsVal
  max : JsVal
  deriving DecidableEq, Repr

/-- Modelled from the spec: FilterParameters, `{layers: [...]}`, for each layer index a mapping
from widget id to filter arguments; the filter code is missing from the sources. -/
structure FilterParameters where
  layers : List (List (String × FilterArgs))
  deriving DecidableEq, Repr

/-- Modelled from the spec: a filter whose arguments have been validated, the unit of the
LayerFilterState; the filter code is missing from the sources. -/
inductive Filter where
  | accept (column : String) (values : List String)
  | reject (column : String) (values : List String)
  | acceptReject (column : String) (accepted rejected : List String)
  | greaterThan (column : String) (min : ℚ)
  | lessThan (column : String) (max : ℚ)
  | between (column : String) (min max : ℚ)
  deriving DecidableEq, Repr

/-- Modelled from the spec: the error taxonomy of the filter engine (section 7); the filter code
is missing from the sources. -/
inductive FilterError where
  | UnknownLayer
  | UnknownWidget
  | InvalidFilterArgs (message : String)
  deriving DecidableEq, Repr

/-- Modelled from the spec: the validation of a category filter, which "fails ... if neither
`accept` nor `reject` is supplied" and "if a supplied array is empty"; the filter code is missing
from the sources. -/
def categoryFilter (column : String) (args : FilterArgs) : Except FilterError Filter :=
  match args.accept, args.reject with
  | none, none =>
    Except.error (FilterError.InvalidFilterArgs
      "Category filter expects at least one array in accept or reject params")
  | some accepted, none =>
    if accepted = [] then
      Except.error (FilterError.InvalidFilterArgs
        "Category filter expects to have at least one value in accept or reject arrays")
    else Except.ok (Filter.accept column accepted)
  | none, some rejected =>
    if rejected = [] then
      Except.error (FilterError.InvalidFilterArgs
        "Category filter expects to have at least one value in accept or reject arrays")
    else Except.ok (Filter.reject column rejected)
  | some accepted, some rejected =>
    if accepted = [] ∨ rejected = [] then
      Except.error (FilterError.InvalidFilterArgs
        "Category filter expects to have at least one value in accept or reject arrays")
    else Except.ok (Filter.acceptReject column accepted rejected)

/-- Modelled from the spec: "a finite number", as `min` and `max` of a range filter must be; the
filter code is missing from the sources. Every number of `JsVal` is finite. -/
def finiteNumber : JsVal → Option ℚ
  | JsVal.num n => some n
  | _ => none

/-- Modelled from the spec: the validation of a range filter, which "fails ... unless at least
one of `min`/`max` is a finite number"; the filter code is missing from the sources. -/
def rangeFilter (column : String) (args : FilterArgs) : Except FilterError Filter :=
  match finiteNumber args.min, finiteNumber args.max with
  | none, none =>
    Except.error (FilterError.InvalidFilterArgs
      "Range filter expect to have at least one value in min or max numeric params")
  | some min, none => Except.ok (Filter.greaterThan column min)
  | none, some max => Except.ok (Filter.lessThan column max)
  | some min, some max => Except.ok (Filter.between column min max)

/-- Modelled from the spec: "Determine filter kind from the Widget's declared type"; the filter
code is missing from the sources. -/
def widgetFilter (widget : Widget) (args : FilterArgs) : Except FilterError Filter :=
  match widget.type with
  | WidgetType.aggregation => categoryFilter widget.column args
  | WidgetType.histogram _ _ => rangeFilter widget.column args

/-- Modelled from the spec: the `<quoted-values>` of a category clause, each value between single
quotes, as the test shows (`('Spain')`), separated by commas; the filter code is missing from the
sources. -/
def quotedValues (values : List String) : String :=
  String.intercalate "," (values.map (fun value => "'" ++ value ++ "'"))

/-- Modelled from the spec: the text that stands for a number in a clause (`<min>`, `<max>`), as
JavaScript writes a number into a string: the decimal digits of an integer (`0` and `100` in the
test) and, for a number that is not an integer, its finite decimal expansion (`0.5`, `-12.25`).
A number without a finite decimal expansion cannot come from a request and is written as its
fraction; the exponent notation of very small and very large numbers is left out. The filter code
is missing from the sources. -/
def numberText (q : ℚ) : String :=
  if q.den = 1 then toString q.num
  else
    match (List.range (q.den + 1)).find? (fun k => 10 ^ k % q.den = 0) with
    | none => toString q.num ++ "/" ++ toString q.den
    | some k =>
      let scaled : Nat := q.num.natAbs * (10 ^ k / q.den)
      let digits : String := toString (scaled % 10 ^ k)
      (if q.num < 0 then "-" else "") ++ toString (scaled / 10 ^ k) ++ "." ++
        String.mk (List.replicate (k - digits.length) '0') ++ digits

/-- Modelled from the spec: the clause after `WHERE`, "`<column> IN (<quoted-values>)`",
"`<column> NOT IN (<quoted-values>)`", "joined with `AND` only when both present", and
"`<column> > <min>`", "`<column> < <max>`", "`<column> BETWEEN <min> AND <max>`"; the filter code
is missing from the sources. -/
def Filter.clause : Filter → String
  | Filter.accept column values => column ++ " IN (" ++ quotedValues values ++ ")"
  | Filter.reject column values => column ++ " NOT IN (" ++ quotedValues values ++ ")"
  | Filter.acceptReject column accepted rejected =>
    column ++ " IN (" ++ quotedValues accepted ++ ")" ++ " AND " ++
      (column ++ " NOT IN (" ++ quotedValues rejected ++ ")")
  | Filter.greaterThan column min => column ++ " > " ++ numberText min
  | Filter.lessThan column max => column ++ " < " ++ numberText max
  | Filter.between column min max =>
    column ++ " BETWEEN " ++ numberText min ++ " AND " ++ numberText max

/-- Modelled from the spec: the alias of the wrapped query, `_cdb_category_filter` or
`_cdb_range_filter`; the filter code is missing from the sources. -/
def Filter.alias : Filter → String
  | Filter.accept _ _ => "_cdb_category_filter"
  | Filter.reject _ _ => "_cdb_category_filter"
  | Filter.acceptReject _ _ _ => "_cdb_category_filter"
  | Filter.greaterThan _ _ => "_cdb_range_filter"
  | Filter.lessThan _ _ => "_cdb_range_filter"
  | Filter.between _ _ _ => "_cdb_range_filter"

/-- Modelled from the spec: "The rewritten base query becomes:
`SELECT * FROM (<original sql>) _cdb_category_filter <category-where>`", the same with the alias
`_cdb_range_filter` for a range filter; the filter code is missing from the sources. -/
def Filter.sql (filter : Filter) (source : String) : String :=
  "SELECT * FROM (" ++ source ++ ") " ++ filter.alias ++ " WHERE " ++ filter.clause

/-- Modelled from the spec: the filters of one layer applied to a query, one wrapping after the
other in the order of the filter state; the filter code is missing from the sources. -/
def applyFilters (filters : List (String × Filter)) (source : String) : String :=
  filters.foldl (fun query entry => entry.2.sql query) source

/-- Modelled from the spec: the query of a widget around a source query, for an aggregation
"`SELECT count(*) AS count, <column> FROM (<base sql>) _cdb_aggregation GROUP BY <column> ORDER
BY count DESC`"; the widget code is missing from the sources. -/
def Widget.query (widget : Widget) (source : String) : String :=
  match widget.type with
  | WidgetType.aggregation =>
    "SELECT count(*) AS count, " ++ widget.column ++ " FROM (" ++ source ++
      ") _cdb_aggregation GROUP BY " ++ widget.column ++ " ORDER BY count DESC"
  | WidgetType.histogram queryBefore queryAfter => queryBefore ++ source ++ queryAfter

/-- Modelled from the spec: what `getWidget` returns, a widget together with its own base query,
the original `sql` of its layer; the model `mapconfig` is missing from the sources. -/
structure LayerWidget where
  widget : Widget
  baseSql : String
  deriving DecidableEq, Repr

/-- Modelled from the spec: Widget `sql(filterState?)`, "with no filter state, returns the
widget's query built from the layer's *original* base query", with filter state "the same shape
but with the base query replaced by the filtered wrapper"; the widget code is missing from the
sources. -/
def LayerWidget.sql (w : LayerWidget) (filters : Option (List (String × Filter))) : String :=
  match filters with
  | none => w.widget.query w.baseSql
  | some state => w.widget.query (applyFilters state w.baseSql)

/-- Modelled from the spec: a MapConfiguration, its layers as created and the LayerFilterState
of each layer index ("ephemeral ... created on `setFiltersParams` ... discarded on
`clearFilters`"); the model `mapconfig` is missing from the sources. -/
structure MapConfig where
  layers : List Layer
  filters : List (List (String × Filter))
  deriving DecidableEq, Repr

/-- Modelled from the spec: `MapConfig.create`, a configuration with no filter state; the model
`mapconfig` is missing from the sources. -/
def MapConfig.create (layers : List Layer) : MapConfig := ⟨layers, []⟩

/-- Modelled from the spec: the validation of the filter arguments of one layer, "locate the
Widget; if absent, fail with `UnknownWidget`", then validate by kind; the filter code is missing
from the sources. -/
def layerFilters (widgets : List (String × Widget)) :
    List (String × FilterArgs) → Except FilterError (List (String × Filter))
  | [] => Except.ok []
  | (widgetId, args) :: rest =>
    match widgets.lookup widgetId with
    | none => Except.error FilterError.UnknownWidget
    | some widget =>
      match widgetFilter widget args with
      | Except.error err => Except.error err
      | Except.ok filter =>
        match layerFilters widgets rest with
        | Except.error err => Except.error err
        | Except.ok filters => Except.ok ((widgetId, filter) :: filters)

/-- Modelled from the spec: the validation of all filter parameters, layer index by layer index;
parameters for a layer index that the configuration does not have fail with `UnknownLayer`; the
filter code is missing from the sources. -/
def allFilters : List Layer → List (List (String × FilterArgs)) →
    Except FilterError (List (List (String × Filter)))
  | _, [] => Except.ok []
  | [], _ :: _ => Except.error FilterError.UnknownLayer
  | layer :: layers, args :: rest =>
    match layerFilters layer.widgets args with
    | Except.error err => Except.error err
    | Except.ok filters =>
      match allFilters layers rest with
      | Except.error err => Except.error err
      | Except.ok others => Except.ok (filters :: others)

/-- Modelled from the spec: `setFiltersParams(params)`, synchronous and "atomic per call - either
all referenced widgets validate or none are applied"; the new filter state replaces the old one;
the model `mapconfig` is missing from the sources. -/
def MapConfig.setFiltersParams (config : MapConfig) (params : FilterParameters) :
    Except FilterError MapConfig :=
  match allFilters config.layers params.layers with
  | Except.error err => Except.error err
  | Except.ok filters => Except.ok ⟨config.layers, filters⟩

/-- Modelled from the spec: `getLayerFilters(layerIndex)`, "the currently active filter state for
a layer"; the model `mapconfig` is missing from the sources. -/
def MapConfig.getLayerFilters (config : MapConfig) (layerIndex : Nat) : List (String × Filter) :=
  config.filters.getD layerIndex []

/-- Modelled from the spec: `clearFilters()`, which "discards all LayerFilterState"; the model
`mapconfig` is missing from the sources. -/
def MapConfig.clearFilters (config : MapConfig) : MapConfig := ⟨config.layers, []⟩

/-- Modelled from the spec: the layers with their `sql` rewritten by the filter state, the
content that the configuration shows while filters are applied; the model `mapconfig` is missing
from the sources. -/
def rewriteLayers : List Layer → List (List (String × Filter)) → List Layer
  | [], _ => []
  | layer :: layers, [] => layer :: layers
  | layer :: layers, filters :: rest =>
    { layer with sql := applyFilters filters layer.sql } :: rewriteLayers layers rest

/-- Modelled from the spec: `getLayer(layerIndex)`, the layer with its current `sql`; the model
`mapconfig` is missing from the sources. -/
def MapConfig.getLayer (config : MapConfig) (layerIndex : Nat) : Option Layer :=
  (rewriteLayers config.layers config.filters)[layerIndex]?

/-- Modelled from the spec: `getWidget(layerIndex, widgetId)`, the widget with the original `sql`
of its layer as its own base query; the model `mapconfig` is missing from the sources. -/
def MapConfig.getWidget (config : MapConfig) (layerIndex : Nat) (widgetId : String) :
    Option LayerWidget :=
  match config.layers[layerIndex]? with
  | none => none
  | some layer =>
    match layer.widgets.lookup widgetId with
    | none => none
    | some widget => some ⟨widget, layer.sql⟩

/-- Modelled from the spec: Identity, "a hash/fingerprint over its serialized content"; the
fingerprint function `hash` is an argument and the content is the layers with their current
`sql`; the model `mapconfig` is missing from the sources. -/
def MapConfig.id {ι : Type} (hash : List Layer → ι) (config : MapConfig) : ι :=
  hash (rewriteLayers config.layers config.filters)

/-- The text contains the pattern. -/
def Contains (text pattern : String) : Prop :=
  ∃ before after : String, text = before ++ pattern ++ after

/-- Does the text start with the pattern, character by character. -/
def startsWithText : List Char → List Char → Bool
  | [], _ => true
  | _ :: _, [] => false
  | p :: ps, c :: cs => (c == p) && startsWithText ps cs

/-- The search of a pattern in a text: the test `text.match(/pattern/)` for a pattern without
special characters. -/
def searchText (pattern : List Char) : List Char → Bool
  | [] => startsWithText pattern []
  | c :: cs => startsWithText pattern (c :: cs) || searchText pattern cs

/-! ## Properties of the tile-error strategies -/

theorem matchHere_iff (pat text : List Char) :
    matchHere pat text = true ↔
      ∃ mid post : List Char, text = mid ++ post ∧ mid.map Char.toLower = pat.map Char.toLower := by
  induction pat generalizing text with
  | nil =>
    constructor
    · intro _
      exact ⟨[], text, by simp, by simp⟩
    · intro _
      simp [matchHere]
  | cons p ps ih =>
    cases text with
    | nil =>
      constructor
      · intro h
        simp [matchHere] at h
      · rintro ⟨mid, post, h1, h2⟩
        cases mid with
        | nil => simp at h2
        | cons m ms => simp at h1
    | cons c cs =>
      constructor
      · intro h
        simp only [matchHere, Bool.and_eq_true, beq_iff_eq] at h
        obtain ⟨mid, post, h1, h2⟩ := (ih cs).1 h.2
        exact ⟨c :: mid, post, by simp [h1], by simp [h2, h.1]⟩
      · rintro ⟨mid, post, h1, h2⟩
        cases mid with
        | nil => simp at h2
        | cons m ms =>
          simp only [List.cons_append, List.cons.injEq] at h1
          simp only [List.map_cons, List.cons.injEq] at h2
          simp only [matchHere, Bool.and_eq_true, beq_iff_eq]
          exact ⟨by rw [h1.1]; exact h2.1, (ih cs).2 ⟨ms, post, h1.2, h2.2⟩⟩

theorem regexSearch_iff (pat text : List Char) :
    regexSearch pat text = true ↔ ContainsIgnoreCase pat text := by
  induction text with
  | nil =>
    constructor
    · intro h
      obtain ⟨mid, post, h1, h2⟩ := (matchHere_iff pat []).1 h
      exact ⟨[], mid, post, by simpa using h1, h2⟩
    · rintro ⟨pre, mid, post, h1, h2⟩
      have hpre : pre = [] := by
        cases pre with
        | nil => rfl
        | cons a as => simp at h1
      subst hpre
      exact (matchHere_iff pat []).2 ⟨mid, post, by simpa using h1, h2⟩
  | cons c cs ih =>
    simp only [regexSearch, Bool.or_eq_true]
    constructor
    · rintro (h | h)
      · obtain ⟨mid, post, h1, h2⟩ := (matchHere_iff pat (c :: cs)).1 h
        exact ⟨[], mid, post, by simpa using h1, h2⟩
      · obtain ⟨pre, mid, post, h1, h2⟩ := ih.1 h
        exact ⟨c :: pre, mid, post, by simp [h1], h2⟩
    · rintro ⟨pre, mid, post, h1, h2⟩
      cases pre with
      | nil =>
        left
        exact (matchHere_iff pat (c :: cs)).2 ⟨mid, post, by simpa using h1, h2⟩
      | cons a as =>
        right
        simp only [List.cons_append, List.cons.injEq] at h1
        exact ih.2 ⟨as, mid, post, by simpa using h1.2, h2⟩

theorem isCoordinatesOutOfRange_iff (err : JsError) :
    isCoordinatesOutOfRange err = true ↔
      ∃ m : String, err.message = some m ∧ m ≠ "" ∧
        ContainsIgnoreCase "coordinates out of range".toList m.toList := by
  unfold isCoordinatesOutOfRange
  cases hm : err.message with
  | none => simp
  | some m =>
    simp only [Bool.and_eq_true, bne_iff_ne, ne_eq, regexSearch_iff, Option.some.injEq]
    constructor
    · intro h
      exact ⟨m, rfl, h.1, h.2⟩
    · rintro ⟨m', h1, h2, h3⟩
      subst h1
      exact ⟨h2, h3⟩

/-- C2: `onTileErrorStrategyHttpRenderer` propagates the error if and only if it is a timeout.
When `err.code` is `'ETIMEDOUT'` the callback receives `(err, tile, headers, stats)` unchanged;
for every other error it receives no error, the pre-encoded blank image, the headers
`{'Content-Type': 'image/png'}` and `stats`, or an empty object when `stats` is missing. -/
theorem onTileErrorStrategyHttpRenderer_timeout_iff (err : JsError) (tile : Option Tile)
    (headers stats : Option Obj) (format : String) :
    (err.code = JsVal.str "ETIMEDOUT" →
      onTileErrorStrategyHttpRenderer err tile headers stats format =
        ⟨some err, tile, headers, stats⟩) ∧
    (err.code ≠ JsVal.str "ETIMEDOUT" →
      (onTileErrorStrategyHttpRenderer err tile headers stats format).err = none ∧
      (onTileErrorStrategyHttpRenderer err tile headers stats format).tile =
        some Tile.EMPTY_IMAGE_BUFFER ∧
      (onTileErrorStrategyHttpRenderer err tile headers stats format).headers =
        some [("Content-Type", JsVal.str "image/png")] ∧
      (∀ s : Obj, stats = some s →
        (onTileErrorStrategyHttpRenderer err tile headers stats format).stats = some s) ∧
      (stats = none →
        (onTileErrorStrategyHttpRenderer err tile headers stats format).stats = some [])) ∧
    ((onTileErrorStrategyHttpRenderer err tile headers stats format).err = some err ↔
      err.code = JsVal.str "ETIMEDOUT") := by
  by_cases h : err.code = JsVal.str "ETIMEDOUT"
  · simp [onTileErrorStrategyHttpRenderer, h]
  · refine ⟨fun h1 => absurd h1 h, fun _ => ?_, ?_⟩
    · refine ⟨by simp [onTileErrorStrategyHttpRenderer, h],
        by simp [onTileErrorStrategyHttpRenderer, h],
        by simp [onTileErrorStrategyHttpRenderer, h], ?_, ?_⟩
      · intro s hs
        simp [onTileErrorStrategyHttpRenderer, h, hs]
      · intro hs
        simp [onTileErrorStrategyHttpRenderer, h, hs]
    · simp [onTileErrorStrategyHttpRenderer, h]

/-- C2 at concrete errors: a timeout with stats is handed on as it is, a 404 without stats
becomes the blank image with empty stats. -/
theorem onTileErrorStrategyHttpRenderer_timeout_iff_witness :
    onTileErrorStrategyHttpRenderer ⟨some "timeout", JsVal.str "ETIMEDOUT"⟩
        (some (Tile.buffer [1])) none (some [("n", JsVal.num 1)]) "png" =
      ⟨some ⟨some "timeout", JsVal.str "ETIMEDOUT"⟩, some (Tile.buffer [1]), none,
        some [("n", JsVal.num 1)]⟩ ∧
    (onTileErrorStrategyHttpRenderer ⟨some "Not Found", JsVal.num 404⟩
        none none none "png").stats = some [] :=
  ⟨(onTileErrorStrategyHttpRenderer_timeout_iff ⟨some "timeout", JsVal.str "ETIMEDOUT"⟩
      (some (Tile.buffer [1])) none (some [("n", JsVal.num 1)]) "png").1 rfl,
    ((onTileErrorStrategyHttpRenderer_timeout_iff ⟨some "Not Found", JsVal.num 404⟩
      none none none "png").2.1 (by decide)).2.2.2.2 rfl⟩

/-- C3: the default `onTileErrorStrategy` substitutes a blank tile if and only if the error is
the recognized geometry-range error. The callback receives
`(null, blank image, {'Content-Type': 'image/png'}, stats or {})` exactly when `err.message` is
a non-empty string containing `coordinates out of range` up to letter case; in every other case
(a timeout, an error with no message, ...) it receives `(err, tile, headers, stats)` unchanged. -/
theorem onTileErrorStrategy_blank_iff (err : JsError) (tile : Option Tile)
    (headers stats : Option Obj) (format : String) :
    ((∃ m : String, err.message = some m ∧ m ≠ "" ∧
        ContainsIgnoreCase "coordinates out of range".toList m.toList) →
      onTileErrorStrategy err tile headers stats format =
        ⟨none, some Tile.EMPTY_IMAGE_BUFFER, some [("Content-Type", JsVal.str "image/png")],
          some (stats.getD [])⟩) ∧
    ((¬ ∃ m : String, err.message = some m ∧ m ≠ "" ∧
        ContainsIgnoreCase "coordinates out of range".toList m.toList) →
      onTileErrorStrategy err tile headers stats format = ⟨some err, tile, headers, stats⟩) ∧
    (onTileErrorStrategy err tile headers stats format =
        ⟨none, some Tile.EMPTY_IMAGE_BUFFER, some [("Content-Type", JsVal.str "image/png")],
          some (stats.getD [])⟩ ↔
      ∃ m : String, err.message = some m ∧ m ≠ "" ∧
        ContainsIgnoreCase "coordinates out of range".toList m.toList) ∧
    (err.message = none →
      onTileErrorStrategy err tile headers stats format = ⟨some err, tile, headers, stats⟩) := by
  rw [← isCoordinatesOutOfRange_iff]
  refine ⟨?_, ?_, ?_, ?_⟩
  · intro h
    simp [onTileErrorStrategy, h]
  · intro h
    simp [onTileErrorStrategy, h]
  · by_cases h : isCoordinatesOutOfRange err = true
    · simp [onTileErrorStrategy, h]
    · simp [onTileErrorStrategy, h]
  · intro h
    simp [onTileErrorStrategy, isCoordinatesOutOfRange, h]

/-- C3 at concrete errors: a mixed-case geometry-range message becomes the blank tile, a timeout
whose message does not name the range error is handed on as it is. -/
theorem onTileErrorStrategy_blank_iff_witness :
    onTileErrorStrategy ⟨some "X Coordinates OUT of range", JsVal.undefined⟩
        none none none "png" =
      ⟨none, some Tile.EMPTY_IMAGE_BUFFER, some [("Content-Type", JsVal.str "image/png")],
        some []⟩ ∧
    onTileErrorStrategy ⟨some "timeout", JsVal.str "ETIMEDOUT"⟩
        (some (Tile.buffer [1])) none none "png" =
      ⟨some ⟨some "timeout", JsVal.str "ETIMEDOUT"⟩, some (Tile.buffer [1]), none, none⟩ :=
  ⟨(onTileErrorStrategy_blank_iff ⟨some "X Coordinates OUT of range", JsVal.undefined⟩
      none none none "png").1
      ⟨"X Coordinates OUT of range", rfl, by decide,
        "X ".toList, "Coordinates OUT of range".toList, [], by decide, by decide⟩,
    (onTileErrorStrategy_blank_iff ⟨some "timeout", JsVal.str "ETIMEDOUT"⟩
      (some (Tile.buffer [1])) none none "png").2.1
      (by
        rw [← isCoordinatesOutOfRange_iff]
        decide)⟩

/-! ## Properties of the step filter -/

/-- C10: `stepFilter(attrs)` returns the empty string if and only if `attrs.stepSelect` is
`undefined`; whenever `stepSelect` is defined (0 and `null` included) it returns the clause
`AND floor(({column_conv} - {start})/{step}) BETWEEN {stepSelect} - {stepOffset} + 1 AND
{stepSelect} `, with its trailing blank. -/
theorem stepFilter_empty_iff (attrs : Obj) :
    (stepFilter attrs = "" ↔ Obj.prop attrs "stepSelect" = JsVal.undefined) ∧
    (Obj.prop attrs "stepSelect" ≠ JsVal.undefined →
      stepFilter attrs =
        "AND floor((\x7bcolumn_conv\x7d - \x7bstart\x7d)/\x7bstep\x7d) BETWEEN \x7bstepSelect\x7d - \x7bstepOffset\x7d + 1 AND \x7bstepSelect\x7d ") ∧
    stepFilter [("stepSelect", JsVal.num 0)] ≠ "" ∧
    stepFilter [("stepSelect", JsVal.null)] ≠ "" ∧
    stepFilter [] = "" := by
  refine ⟨?_, ?_, by decide, by decide, by decide⟩
  · by_cases h : Obj.prop attrs "stepSelect" = JsVal.undefined
    · simp [stepFilter, h]
    · simp only [stepFilter, h, ne_eq, not_false_eq_true, if_true, iff_false]
      decide
  · intro h
    simp only [stepFilter, h, ne_eq, not_false_eq_true, if_true]
    decide

/-- C10 at concrete attributes: a `stepSelect` of 0 gives the clause. -/
theorem stepFilter_empty_iff_witness :
    stepFilter [("step", JsVal.num 1), ("stepSelect", JsVal.num 0)] =
      "AND floor((\x7bcolumn_conv\x7d - \x7bstart\x7d)/\x7bstep\x7d) BETWEEN \x7bstepSelect\x7d - \x7bstepOffset\x7d + 1 AND \x7bstepSelect\x7d " :=
  (stepFilter_empty_iff [("step", JsVal.num 1), ("stepSelect", JsVal.num 0)]).2.1 (by decide)

/-! ## Properties of the tile geometry -/

theorem cdb_XYZ_Extent_width (ts mg bs res : ℚ) (x y : ℤ) (z : ℕ) (hts : ts ≠ 0) :
    (cdb_XYZ_Extent ts mg bs res x y z).xmax - (cdb_XYZ_Extent ts mg bs res x y z).xmin =
      mg / 2 ^ z := by
  simp only [cdb_XYZ_Extent, cdb_XYZ_Resolution]
  field_simp
  ring

theorem cdb_XYZ_Extent_height (ts mg bs res : ℚ) (x y : ℤ) (z : ℕ) (hts : ts ≠ 0) :
    (cdb_XYZ_Extent ts mg bs res x y z).ymin - (cdb_XYZ_Extent ts mg bs res x y z).ymax =
      mg / 2 ^ z := by
  simp only [cdb_XYZ_Extent, cdb_XYZ_Resolution]
  field_simp
  ring

theorem cdb_XYZ_Resolution_pos (ts mg : ℚ) (z : ℕ) (hts : 0 < ts) (hmg : 0 < mg) :
    0 < cdb_XYZ_Resolution ts mg z := by
  simp only [cdb_XYZ_Resolution]
  positivity

theorem cdb_XYZ_Extent_pixres (ts mg : ℚ) (z : ℕ) :
    cdb_XYZ_Resolution ts mg 0 / 2 ^ z = cdb_XYZ_Resolution ts mg z := by
  simp [cdb_XYZ_Resolution]

/-- C7: for every tile `(z, x, y)` and positive `tileSize` and `maxGeoSize`, in exact arithmetic,
the unbuffered box of `cdb_XYZ_Extent` has width `xmax - xmin` and height `ymin - ymax` both equal
to `maxGeoSize / 2^z`, whatever `x` and `y`; at `z = 0, x = 0, y = 0` the box is
`[-maxGeoSize/2, maxGeoSize/2]` on both axes, so both equal the full extent; and increasing `z`
by 1 halves both dimensions. -/
theorem cdb_XYZ_Extent_size (ts mg bs res : ℚ) (x y : ℤ) (z : ℕ) (hts : 0 < ts) (hmg : 0 < mg) :
    (cdb_XYZ_Extent ts mg bs res x y z).xmax - (cdb_XYZ_Extent ts mg bs res x y z).xmin =
        mg / 2 ^ z ∧
    (cdb_XYZ_Extent ts mg bs res x y z).ymin - (cdb_XYZ_Extent ts mg bs res x y z).ymax =
        mg / 2 ^ z ∧
    (cdb_XYZ_Extent ts mg bs res 0 0 0).xmin = -mg / 2 ∧
    (cdb_XYZ_Extent ts mg bs res 0 0 0).xmax = mg / 2 ∧
    (cdb_XYZ_Extent ts mg bs res 0 0 0).ymin = mg / 2 ∧
    (cdb_XYZ_Extent ts mg bs res 0 0 0).ymax = -mg / 2 ∧
    (cdb_XYZ_Extent ts mg bs res 0 0 0).xmax - (cdb_XYZ_Extent ts mg bs res 0 0 0).xmin = mg ∧
    (cdb_XYZ_Extent ts mg bs res 0 0 0).ymin - (cdb_XYZ_Extent ts mg bs res 0 0 0).ymax = mg ∧
    (∀ x1 y1 : ℤ,
      (cdb_XYZ_Extent ts mg bs res x1 y1 (z + 1)).xmax -
          (cdb_XYZ_Extent ts mg bs res x1 y1 (z + 1)).xmin =
        ((cdb_XYZ_Extent ts mg bs res x y z).xmax -
          (cdb_XYZ_Extent ts mg bs res x y z).xmin) / 2) ∧
    (∀ x1 y1 : ℤ,
      (cdb_XYZ_Extent ts mg bs res x1 y1 (z + 1)).ymin -
          (cdb_XYZ_Extent ts mg bs res x1 y1 (z + 1)).ymax =
        ((cdb_XYZ_Extent ts mg bs res x y z).ymin -
          (cdb_XYZ_Extent ts mg bs res x y z).ymax) / 2) := by
  have h0 : ts ≠ 0 := ne_of_gt hts
  have _hm : mg ≠ 0 := ne_of_gt hmg
  refine ⟨cdb_XYZ_Extent_width ts mg bs res x y z h0, cdb_XYZ_Extent_height ts mg bs res x y z h0,
    ?_, ?_, ?_, ?_, ?_, ?_, ?_, ?_⟩
  · simp only [cdb_XYZ_Extent, cdb_XYZ_Resolution]
    field_simp
  · simp only [cdb_XYZ_Extent, cdb_XYZ_Resolution]
    field_simp
    ring
  · simp only [cdb_XYZ_Extent, cdb_XYZ_Resolution]
    field_simp
  · simp only [cdb_XYZ_Extent, cdb_XYZ_Resolution]
    field_simp
    ring
  · rw [cdb_XYZ_Extent_width ts mg bs res 0 0 0 h0]
    simp
  · rw [cdb_XYZ_Extent_height ts mg bs res 0 0 0 h0]
    simp
  · intro x1 y1
    rw [cdb_XYZ_Extent_width ts mg bs res x1 y1 (z + 1) h0,
      cdb_XYZ_Extent_width ts mg bs res x y z h0, pow_succ]
    field_simp
  · intro x1 y1
    rw [cdb_XYZ_Extent_height ts mg bs res x1 y1 (z + 1) h0,
      cdb_XYZ_Extent_height ts mg bs res x y z h0, pow_succ]
    field_simp

/-- C7 at the default tiling (256 pixel tiles, extent 40075017): tile `(z, x, y) = (2, 1, 3)`. -/
theorem cdb_XYZ_Extent_size_witness :
    (0 : ℚ) < 256 ∧ (0 : ℚ) < 40075017 ∧
    (cdb_XYZ_Extent 256 40075017 0 1 1 3 2).xmax - (cdb_XYZ_Extent 256 40075017 0 1 1 3 2).xmin =
      40075017 / 2 ^ 2 :=
  ⟨by norm_num, by norm_num,
    (cdb_XYZ_Extent_size 256 40075017 0 1 1 3 2 (by norm_num) (by norm_num)).1⟩

/-- C8: for every tile and buffer size, with `g = resolution(z) * (bufferSizePx / 2)`,
`cdb_XYZ_Extent` returns `b_xmin = xmin - g`, `b_xmax = xmax + g`, `b_ymin = ymin + g`,
`b_ymax = ymax - g` and `b_size = (bufferSizePx / 2) / attrs.resolution`: the fields named
`xmin`/`xmax` move apart by `g` on each side, and of the y fields the one named `ymin` is raised
and the one named `ymax` is lowered by `g`. -/
theorem cdb_XYZ_Extent_buffered (ts mg bs res : ℚ) (x y : ℤ) (z : ℕ) :
    (cdb_XYZ_Extent ts mg bs res x y z).b_xmin =
      (cdb_XYZ_Extent ts mg bs res x y z).xmin - cdb_XYZ_Resolution ts mg z * (bs / 2) ∧
    (cdb_XYZ_Extent ts mg bs res x y z).b_xmax =
      (cdb_XYZ_Extent ts mg bs res x y z).xmax + cdb_XYZ_Resolution ts mg z * (bs / 2) ∧
    (cdb_XYZ_Extent ts mg bs res x y z).b_ymin =
      (cdb_XYZ_Extent ts mg bs res x y z).ymin + cdb_XYZ_Resolution ts mg z * (bs / 2) ∧
    (cdb_XYZ_Extent ts mg bs res x y z).b_ymax =
      (cdb_XYZ_Extent ts mg bs res x y z).ymax - cdb_XYZ_Resolution ts mg z * (bs / 2) ∧
    (cdb_XYZ_Extent ts mg bs res x y z).b_size = (bs / 2) / res := by
  have h := cdb_XYZ_Extent_pixres ts mg z
  refine ⟨?_, ?_, ?_, ?_, ?_⟩ <;> simp only [cdb_XYZ_Extent, h]

/-- C9, in exact arithmetic: the buffered extent is the bounding box of the tile expanded by the
margin. For every tile `(z, x, y)`, positive `tileSize` and `maxGeoSize` and `bufferSizePx >= 0`,
the buffered box contains the unbuffered one on both axes: `b_xmin <= xmin`, `xmax <= b_xmax`,
and the y interval `[ymax, ymin]` lies in `[b_ymax, b_ymin]`; all four inequalities are strict
when `bufferSizePx > 0`. In the double arithmetic of the code the margin can be rounded away,
and the strictness with it. -/
theorem cdb_XYZ_Extent_buffered_contains (ts mg bs res : ℚ) (x y : ℤ) (z : ℕ)
    (hts : 0 < ts) (hmg : 0 < mg) (hbs : 0 ≤ bs) :
    ((cdb_XYZ_Extent ts mg bs res x y z).b_xmin ≤ (cdb_XYZ_Extent ts mg bs res x y z).xmin ∧
      (cdb_XYZ_Extent ts mg bs res x y z).xmax ≤ (cdb_XYZ_Extent ts mg bs res x y z).b_xmax ∧
      (cdb_XYZ_Extent ts mg bs res x y z).b_ymax ≤ (cdb_XYZ_Extent ts mg bs res x y z).ymax ∧
      (cdb_XYZ_Extent ts mg bs res x y z).ymax ≤ (cdb_XYZ_Extent ts mg bs res x y z).ymin ∧
      (cdb_XYZ_Extent ts mg bs res x y z).ymin ≤ (cdb_XYZ_Extent ts mg bs res x y z).b_ymin) ∧
    (0 < bs →
      (cdb_XYZ_Extent ts mg bs res x y z).b_xmin < (cdb_XYZ_Extent ts mg bs res x y z).xmin ∧
      (cdb_XYZ_Extent ts mg bs res x y z).xmax < (cdb_XYZ_Extent ts mg bs res x y z).b_xmax ∧
      (cdb_XYZ_Extent ts mg bs res x y z).b_ymax < (cdb_XYZ_Extent ts mg bs res x y z).ymax ∧
      (cdb_XYZ_Extent ts mg bs res x y z).ymin < (cdb_XYZ_Extent ts mg bs res x y z).b_ymin) := by
  have hres : 0 < cdb_XYZ_Resolution ts mg z := cdb_XYZ_Resolution_pos ts mg z hts hmg
  have hpix := cdb_XYZ_Extent_pixres ts mg z
  have hh := cdb_XYZ_Extent_height ts mg bs res x y z (ne_of_gt hts)
  have hsz : (0 : ℚ) < mg / 2 ^ z := by positivity
  have hg : 0 ≤ cdb_XYZ_Resolution ts mg z * (bs / 2) := by positivity
  refine ⟨⟨?_, ?_, ?_, ?_, ?_⟩, ?_⟩
  · simp only [cdb_XYZ_Extent, hpix]
    linarith
  · simp only [cdb_XYZ_Extent, hpix]
    linarith
  · simp only [cdb_XYZ_Extent, hpix]
    linarith
  · linarith
  · simp only [cdb_XYZ_Extent, hpix]
    linarith
  · intro hb
    have hg1 : 0 < cdb_XYZ_Resolution ts mg z * (bs / 2) := by positivity
    refine ⟨?_, ?_, ?_, ?_⟩
    · simp only [cdb_XYZ_Extent, hpix]
      linarith
    · simp only [cdb_XYZ_Extent, hpix]
      linarith
    · simp only [cdb_XYZ_Extent, hpix]
      linarith
    · simp only [cdb_XYZ_Extent, hpix]
      linarith

/-- C9 at the default tiling with a 64 pixel buffer: tile `(z, x, y) = (1, 1, 0)`. -/
theorem cdb_XYZ_Extent_buffered_contains_witness :
    (0 : ℚ) < 256 ∧ (0 : ℚ) < 40075017 ∧ (0 : ℚ) ≤ 64 ∧
    (cdb_XYZ_Extent 256 40075017 64 1 1 0 1).b_xmin < (cdb_XYZ_Extent 256 40075017 64 1 1 0 1).xmin :=
  ⟨by norm_num, by norm_num, by norm_num,
    ((cdb_XYZ_Extent_buffered_contains 256 40075017 64 1 1 0 1 (by norm_num) (by norm_num)
      (by norm_num)).2 (by norm_num)).1⟩

/-! ## Properties of the heap and of the dispatch of the layers -/

theorem Heap.read_append_left (h ext : Heap) (r : Nat) (hr : r < h.length) :
    Heap.read (h ++ ext) r = Heap.read h r := by
  simp [Heap.read, List.getD_eq_getElem?_getD, List.getElem?_append_left hr]

theorem Heap.read_fresh_fst (h : Heap) (a b : Obj) : Heap.read (h ++ [a, b]) h.length = a := by
  induction h with
  | nil => rfl
  | cons o os ih => simpa [Heap.read] using ih

theorem Heap.read_fresh_snd (h : Heap) (a b : Obj) :
    Heap.read (h ++ [a, b]) (h.length + 1) = b := by
  induction h with
  | nil => rfl
  | cons o os ih => simpa [Heap.read] using ih

theorem Heap.setProp_fresh (h : Heap) (a b : Obj) (k : String) (v : JsVal) :
    Heap.setProp (h ++ [a, b]) h.length k v = h ++ [a ++ [(k, v)], b] := by
  rw [Heap.setProp, Heap.read_fresh_fst, Obj.set]
  induction h with
  | nil => rfl
  | cons o os ih => simp [ih]

theorem Heap.foldl_setProp_fresh (h : Heap) (kvs a b : Obj) :
    kvs.foldl (fun h2 kv => Heap.setProp h2 h.length kv.1 kv.2) (h ++ [a, b]) =
      h ++ [a ++ kvs, b] := by
  induction kvs generalizing a with
  | nil => simp
  | cons kv rest ih =>
    rw [List.foldl_cons, Heap.setProp_fresh, ih]
    simp

theorem objectAssign_fresh (h : Heap) (params : Nat) (lit : Obj) :
    objectAssign (h ++ [[], lit]) h.length [params, h.length + 1] =
      h ++ [Heap.read (h ++ [[], lit]) params ++ lit, lit] := by
  simp only [objectAssign, List.foldl_cons, List.foldl_nil]
  rw [Heap.foldl_setProp_fresh, Heap.read_fresh_snd, Heap.foldl_setProp_fresh]
  simp


theorem dispatchLayer_heap (layerType : Nat → String) (fl : List Nat) (params : Nat)
    (limits : Option Obj) (st : DispatchState) (i : Nat) (hp : params < st.heap.length) :
    ∃ a b : Obj, (dispatchLayer layerType fl params limits st i).1.heap = st.heap ++ [a, b] := by
  have h2 : st.heap ++ [[]] ++ [[("layer", JsVal.num (i : ℚ))]] =
      st.heap ++ [[], [("layer", JsVal.num (i : ℚ))]] := by simp
  simp only [dispatchLayer, Heap.alloc, List.length_append, List.length_singleton, h2,
    objectAssign_fresh, Heap.read_append_left _ _ _ hp]
  by_cases hm : layerType i = "mapnik"
  · by_cases hh : st.hasMapnikLayer = true
    · simp [hm, hh]
    · simp [hm, hh, Heap.setProp_fresh]
  · simp [hm]

theorem dispatchLayer_slot (layerType : Nat → String) (fl : List Nat) (params : Nat)
    (limits : Option Obj) (st : DispatchState) (i : Nat) (hp : params < st.heap.length) :
    (dispatchLayer layerType fl params limits st i).2 :: [] =
      (dispatchSlots layerType fl (Heap.read st.heap params) limits st.hasMapnikLayer [i]) ∧
    (dispatchLayer layerType fl params limits st i).1.hasMapnikLayer =
      (st.hasMapnikLayer || layerType i == "mapnik") := by
  have h2 : st.heap ++ [[]] ++ [[("layer", JsVal.num (i : ℚ))]] =
      st.heap ++ [[], [("layer", JsVal.num (i : ℚ))]] := by simp
  simp only [dispatchLayer, Heap.alloc, List.length_append, List.length_singleton, h2,
    objectAssign_fresh, Heap.read_append_left _ _ _ hp, dispatchSlots]
  by_cases hm : layerType i = "mapnik"
  · by_cases hh : st.hasMapnikLayer = true
    · simp [hm, hh]
    · simp [hm, hh, Heap.setProp_fresh, Heap.read_fresh_fst]
  · simp [hm, Heap.read_fresh_fst]


theorem dispatchLayers_eq (layerType : Nat → String) (fl : List Nat) (params : Nat)
    (limits : Option Obj) (l : List Nat) (st : DispatchState) (hp : params < st.heap.length) :
    (dispatchLayers layerType fl params limits st l).2 =
      dispatchSlots layerType fl (Heap.read st.heap params) limits st.hasMapnikLayer l ∧
    ∃ ext : Heap, (dispatchLayers layerType fl params limits st l).1.heap = st.heap ++ ext := by
  induction l generalizing st with
  | nil => exact ⟨rfl, [], by simp [dispatchLayers]⟩
  | cons i rest ih =>
    obtain ⟨a, b, hheap⟩ := dispatchLayer_heap layerType fl params limits st i hp
    obtain ⟨hslot, hhas⟩ := dispatchLayer_slot layerType fl params limits st i hp
    have hp1 : params < (dispatchLayer layerType fl params limits st i).1.heap.length := by
      rw [hheap, List.length_append]
      omega
    obtain ⟨ih1, ext, ih2⟩ := ih (dispatchLayer layerType fl params limits st i).1 hp1
    have hread : Heap.read (dispatchLayer layerType fl params limits st i).1.heap params =
        Heap.read st.heap params := by
      rw [hheap, Heap.read_append_left _ _ _ hp]
    refine ⟨?_, [a, b] ++ ext, ?_⟩
    · simp only [dispatchLayers, ih1, hread, hhas]
      by_cases hm : layerType i = "mapnik"
      · simp only [dispatchSlots, hm, beq_self_eq_true, if_true, List.cons.injEq, and_true,
          Bool.or_true] at hslot ⊢
        exact hslot
      · have hb : (layerType i == "mapnik") = false := by simp [hm]
        simp only [dispatchSlots, hb, Bool.false_eq_true, if_false, List.cons.injEq, and_true,
          Bool.or_false] at hslot ⊢
        exact hslot
    · simp only [dispatchLayers, ih2, hheap]
      simp

theorem Obj.get_set_eq (o : Obj) (k : String) (v : JsVal) : Obj.get (o ++ [(k, v)]) k = some v := by
  induction o with
  | nil => simp [Obj.get]
  | cons kv rest ih =>
    obtain ⟨k1, v1⟩ := kv
    simp [Obj.get, ih]

theorem Obj.get_set_ne (o : Obj) (k k1 : String) (v : JsVal) (h : k1 ≠ k) :
    Obj.get (o ++ [(k, v)]) k1 = Obj.get o k1 := by
  induction o with
  | nil => simp [Obj.get, h.symm]
  | cons kv rest ih =>
    obtain ⟨k2, v2⟩ := kv
    simp [Obj.get, ih]

theorem dispatchSlots_length (layerType : Nat → String) (fl : List Nat) (shared : Obj)
    (limits : Option Obj) (has : Bool) (l : List Nat) :
    (dispatchSlots layerType fl shared limits has l).length = l.length := by
  induction l generalizing has with
  | nil => rfl
  | cons i rest ih =>
    by_cases hm : layerType i = "mapnik"
    · simp [dispatchSlots, hm, ih]
    · simp [dispatchSlots, hm, ih]

/-- Every request is the one of its own layer. -/
theorem dispatchSlots_request (layerType : Nat → String) (fl : List Nat) (shared : Obj)
    (limits : Option Obj) (has : Bool) (l : List Nat) (q j : Nat) (req : Request)
    (hj : l[q]? = some j)
    (hreq : (dispatchSlots layerType fl shared limits has l)[q]? = some (some req)) :
    req = ⟨shared ++ [("layer", JsVal.num j)] ++
        (if layerType j = "mapnik" then
          [("layer", JsVal.str (getMapnikLayersFromFilter layerType fl))] else []),
      ⟨limits, if layerType j = "http" then ErrorStrategy.http else ErrorStrategy.default⟩⟩ := by
  induction l generalizing has q with
  | nil => simp at hj
  | cons i rest ih =>
    cases q with
    | zero =>
      simp only [List.getElem?_cons_zero, Option.some.injEq] at hj
      subst hj
      by_cases hm : layerType i = "mapnik"
      · cases has <;> simp [dispatchSlots, hm] at hreq ⊢
        exact hreq.symm
      · simp [dispatchSlots, hm] at hreq ⊢
        exact hreq.symm
    | succ q1 =>
      simp only [List.getElem?_cons_succ] at hj
      by_cases hm : layerType i = "mapnik"
      · simp only [dispatchSlots, hm, beq_self_eq_true, if_true, List.getElem?_cons_succ] at hreq
        exact ih true q1 hj hreq
      · simp only [dispatchSlots, hm, beq_iff_eq, if_false, List.getElem?_cons_succ] at hreq
        exact ih has q1 hj hreq

/-- A layer that is not mapnik always makes its request. -/
theorem dispatchSlots_other (layerType : Nat → String) (fl : List Nat) (shared : Obj)
    (limits : Option Obj) (has : Bool) (l : List Nat) (q j : Nat)
    (hj : l[q]? = some j) (hm : layerType j ≠ "mapnik") :
    ∃ req, (dispatchSlots layerType fl shared limits has l)[q]? = some (some req) := by
  induction l generalizing has q with
  | nil => simp at hj
  | cons i rest ih =>
    cases q with
    | zero =>
      simp only [List.getElem?_cons_zero, Option.some.injEq] at hj
      subst hj
      simp [dispatchSlots, hm]
    | succ q1 =>
      simp only [List.getElem?_cons_succ] at hj
      by_cases hi : layerType i = "mapnik"
      · simp only [dispatchSlots, hi, beq_self_eq_true, if_true, List.getElem?_cons_succ]
        exact ih true q1 hj
      · simp only [dispatchSlots, hi, beq_iff_eq, if_false, List.getElem?_cons_succ]
        exact ih has q1 hj

/-- Once a mapnik request has been made, no mapnik layer makes one. -/
theorem dispatchSlots_after (layerType : Nat → String) (fl : List Nat) (shared : Obj)
    (limits : Option Obj) (l : List Nat) (q j : Nat)
    (hj : l[q]? = some j) (hm : layerType j = "mapnik") :
    (dispatchSlots layerType fl shared limits true l)[q]? = some none := by
  induction l generalizing q with
  | nil => simp at hj
  | cons i rest ih =>
    cases q with
    | zero =>
      simp only [List.getElem?_cons_zero, Option.some.injEq] at hj
      subst hj
      simp [dispatchSlots, hm]
    | succ q1 =>
      simp only [List.getElem?_cons_succ] at hj
      by_cases hi : layerType i = "mapnik"
      · simp only [dispatchSlots, hi, beq_self_eq_true, if_true, List.getElem?_cons_succ]
        exact ih q1 hj
      · simp only [dispatchSlots, hi, beq_iff_eq, if_false, List.getElem?_cons_succ]
        exact ih q1 hj

/-- Before any mapnik request: the first mapnik layer makes the request, the later ones none. -/
theorem dispatchSlots_first (layerType : Nat → String) (fl : List Nat) (shared : Obj)
    (limits : Option Obj) (l : List Nat)
    (hk : ∃ j ∈ l, layerType j = "mapnik") :
    (∃ req, (dispatchSlots layerType fl shared limits false l)[
        l.findIdx (fun j => layerType j == "mapnik")]? = some (some req)) ∧
    ∀ q j, q ≠ l.findIdx (fun j => layerType j == "mapnik") → l[q]? = some j →
      layerType j = "mapnik" →
      (dispatchSlots layerType fl shared limits false l)[q]? = some none := by
  induction l with
  | nil => simp at hk
  | cons i rest ih =>
    by_cases hi : layerType i = "mapnik"
    · refine ⟨by simp [dispatchSlots, hi, List.findIdx_cons], ?_⟩
      intro q j hq hj hm
      cases q with
      | zero => simp [List.findIdx_cons, hi] at hq
      | succ q1 =>
        simp only [List.getElem?_cons_succ] at hj
        simp only [dispatchSlots, hi, beq_self_eq_true, if_true, List.getElem?_cons_succ]
        exact dispatchSlots_after layerType fl shared limits rest q1 j hj hm
    · have hk1 : ∃ j ∈ rest, layerType j = "mapnik" := by
        obtain ⟨j, hj, hm⟩ := hk
        rcases List.mem_cons.1 hj with h | h
        · exact absurd (h ▸ hm) hi
        · exact ⟨j, h, hm⟩
      obtain ⟨ih1, ih2⟩ := ih hk1
      have hb : (layerType i == "mapnik") = false := by simp [hi]
      have hidx : (i :: rest).findIdx (fun j => layerType j == "mapnik") =
          rest.findIdx (fun j => layerType j == "mapnik") + 1 := by
        simp [List.findIdx_cons, hb]
      rw [hidx]
      refine ⟨by simpa [dispatchSlots, hi] using ih1, ?_⟩
      intro q j hq hj hm
      cases q with
      | zero =>
        simp only [List.getElem?_cons_zero, Option.some.injEq] at hj
        exact absurd (hj ▸ hm) hi
      | succ q1 =>
        simp only [List.getElem?_cons_succ] at hj
        simp only [dispatchSlots, hi, beq_iff_eq, if_false, List.getElem?_cons_succ]
        exact ih2 q1 j (by omega) hj hm


theorem Obj.prop_layer_last (o : Obj) (v : JsVal) :
    Obj.prop (o ++ [("layer", v)]) "layer" = v := by
  simp [Obj.prop, Obj.get_set_eq]

theorem Obj.prop_layer_last_two (o : Obj) (v w : JsVal) :
    Obj.prop (o ++ [("layer", v), ("layer", w)]) "layer" = w := by
  have h : o ++ [("layer", v), ("layer", w)] = (o ++ [("layer", v)]) ++ [("layer", w)] := by simp
  rw [h, Obj.prop_layer_last]

/-- Once a mapnik request has been made, the requests are those of the other layers, none of
them with a merged layer list. -/
theorem dispatchSlots_after_requests (layerType : Nat → String) (fl : List Nat) (shared : Obj)
    (limits : Option Obj) (m : JsVal) (l : List Nat) (hm : ∀ n : ℚ, m ≠ JsVal.num n) :
    (((dispatchSlots layerType fl shared limits true l).filterMap id).filter
      (fun r => decide (Obj.prop r.rendererParams "layer" = m))).length = 0 ∧
    ((dispatchSlots layerType fl shared limits true l).filterMap id).length =
      (l.filter (fun j => layerType j != "mapnik")).length := by
  induction l with
  | nil => simp [dispatchSlots]
  | cons i rest ih =>
    by_cases hi : layerType i = "mapnik"
    · simpa [dispatchSlots, hi] using ih
    · have hne : ¬ (JsVal.num (i : ℚ) = m) := fun h => hm i h.symm
      simp only [List.length_eq_zero] at ih
      simp [dispatchSlots, hi, Obj.prop_layer_last, hne, ih.1, ih.2]

/-- Before any mapnik request, with a mapnik layer to come: exactly one request has the merged
layer list, and there is one request more than there are layers of other types. -/
theorem dispatchSlots_first_requests (layerType : Nat → String) (fl : List Nat) (shared : Obj)
    (limits : Option Obj) (l : List Nat) (hk : ∃ j ∈ l, layerType j = "mapnik") :
    (((dispatchSlots layerType fl shared limits false l).filterMap id).filter
      (fun r => decide (Obj.prop r.rendererParams "layer" =
        JsVal.str (getMapnikLayersFromFilter layerType fl)))).length = 1 ∧
    ((dispatchSlots layerType fl shared limits false l).filterMap id).length =
      (l.filter (fun j => layerType j != "mapnik")).length + 1 := by
  induction l with
  | nil => simp at hk
  | cons i rest ih =>
    by_cases hi : layerType i = "mapnik"
    · have h := dispatchSlots_after_requests layerType fl shared limits
        (JsVal.str (getMapnikLayersFromFilter layerType fl)) rest (by simp)
      simp only [List.length_eq_zero] at h
      simp [dispatchSlots, hi, Obj.prop_layer_last_two, h.1, h.2]
    · have hk1 : ∃ j ∈ rest, layerType j = "mapnik" := by
        obtain ⟨j, hj, hm⟩ := hk
        rcases List.mem_cons.1 hj with h | h
        · exact absurd (h ▸ hm) hi
        · exact ⟨j, h, hm⟩
      obtain ⟨ih1, ih2⟩ := ih hk1
      simp [dispatchSlots, hi, Obj.prop_layer_last, ih1, ih2]

theorem exists_mapnik_of_filter (layerType : Nat → String) (l : List Nat)
    (hk : 1 ≤ (l.filter (fun j => layerType j == "mapnik")).length) :
    ∃ j ∈ l, layerType j = "mapnik" := by
  cases hf : l.filter (fun j => layerType j == "mapnik") with
  | nil => simp [hf] at hk
  | cons j js =>
    have hj : j ∈ l.filter (fun j => layerType j == "mapnik") := by simp [hf]
    rw [List.mem_filter] at hj
    exact ⟨j, hj.1, by simpa using hj.2⟩

theorem getRenderer_ok_cons (layerType : Nat → String) (i : Nat) (rest : List Nat)
    (provider : Request → ProviderReply) (heap : Heap) (params : Nat) (limits : Option Obj) :
    (getRenderer layerType (Except.ok (i :: rest)) provider heap params limits).requests =
      (dispatchLayers layerType (i :: rest) params limits ⟨heap, false⟩ (i :: rest)).2.filterMap
        id ∧
    (getRenderer layerType (Except.ok (i :: rest)) provider heap params limits).heap =
      (dispatchLayers layerType (i :: rest) params limits ⟨heap, false⟩ (i :: rest)).1.heap := by
  simp [getRenderer]


/-- C1: `BlendFactory.getRenderer` de-duplicates mapnik layers. When the filtered layer list
holds `k >= 1` indices of type `mapnik` (and `params` is a live reference), the executor at the
position of the first mapnik index makes a request whose `params.layer` is the comma-joined list
of all mapnik indices of the filtered list in their order; at every other position holding a
mapnik index no request is made and the promise resolves empty; so among the requests that
`getRenderer` makes exactly one carries the merged list, and there is one request more than there
are layers of other types. -/
theorem getRenderer_mapnik_dedup (layerType : Nat → String) (filteredLayers : List Nat)
    (provider : Request → ProviderReply) (heap : Heap) (params : Nat) (limits : Option Obj)
    (hp : params < heap.length)
    (hk : 1 ≤ (filteredLayers.filter (fun j => layerType j == "mapnik")).length) :
    (∃ req,
      (dispatchLayers layerType filteredLayers params limits ⟨heap, false⟩ filteredLayers).2[
          filteredLayers.findIdx (fun j => layerType j == "mapnik")]? = some (some req) ∧
      Obj.prop req.rendererParams "layer" =
        JsVal.str (String.intercalate ","
          ((filteredLayers.filter (fun j => layerType j == "mapnik")).map toString))) ∧
    (∀ q j, q ≠ filteredLayers.findIdx (fun j => layerType j == "mapnik") →
      filteredLayers[q]? = some j → layerType j = "mapnik" →
      (dispatchLayers layerType filteredLayers params limits ⟨heap, false⟩ filteredLayers).2[q]? =
        some none ∧
      ((dispatchLayers layerType filteredLayers params limits
        ⟨heap, false⟩ filteredLayers).2.map (layerPromise provider))[q]? =
        some (Settled.resolved none)) ∧
    (getRenderer layerType (Except.ok filteredLayers) provider heap params limits).requests =
      (dispatchLayers layerType filteredLayers params limits
        ⟨heap, false⟩ filteredLayers).2.filterMap id ∧
    ((getRenderer layerType (Except.ok filteredLayers) provider heap params limits).requests.filter
      (fun r => decide (Obj.prop r.rendererParams "layer" =
        JsVal.str (String.intercalate ","
          ((filteredLayers.filter (fun j => layerType j == "mapnik")).map toString))))).length =
      1 ∧
    (getRenderer layerType (Except.ok filteredLayers) provider heap params limits).requests.length =
      (filteredLayers.filter (fun j => layerType j != "mapnik")).length + 1 := by
  have hex := exists_mapnik_of_filter layerType filteredLayers hk
  obtain ⟨hslots, -⟩ := dispatchLayers_eq layerType filteredLayers params limits filteredLayers
    ⟨heap, false⟩ hp
  simp only at hslots
  obtain ⟨⟨req, hreq⟩, hothers⟩ := dispatchSlots_first layerType filteredLayers
    (Heap.read heap params) limits filteredLayers hex
  obtain ⟨hcount, hlen⟩ := dispatchSlots_first_requests layerType filteredLayers
    (Heap.read heap params) limits filteredLayers hex
  have hmerged : getMapnikLayersFromFilter layerType filteredLayers =
      String.intercalate ","
        ((filteredLayers.filter (fun j => layerType j == "mapnik")).map toString) := rfl
  have hreqs : (getRenderer layerType (Except.ok filteredLayers) provider heap params
      limits).requests = (dispatchLayers layerType filteredLayers params limits
        ⟨heap, false⟩ filteredLayers).2.filterMap id := by
    cases filteredLayers with
    | nil => simp at hk
    | cons i rest => exact (getRenderer_ok_cons layerType i rest provider heap params limits).1
  rw [← hmerged, hreqs, hslots]
  refine ⟨⟨req, hreq, ?_⟩, ?_, rfl, hcount, hlen⟩
  · obtain ⟨first, hfirst, hm⟩ : ∃ first,
        filteredLayers[filteredLayers.findIdx (fun j => layerType j == "mapnik")]? = some first ∧
          layerType first = "mapnik" := by
      obtain ⟨j, hj, hjm⟩ := hex
      have hlt : filteredLayers.findIdx (fun j => layerType j == "mapnik") <
          filteredLayers.length :=
        List.findIdx_lt_length_of_exists ⟨j, hj, by simpa using hjm⟩
      refine ⟨filteredLayers[filteredLayers.findIdx (fun j => layerType j == "mapnik")],
        List.getElem?_eq_getElem hlt, ?_⟩
      have := List.findIdx_getElem (w := hlt)
      simpa using this
    have h := dispatchSlots_request layerType filteredLayers (Heap.read heap params) limits false
      filteredLayers _ first req hfirst hreq
    rw [h]
    simp [hm, Obj.prop_layer_last_two]
  · intro q j hq hj hm
    have h := hothers q j hq hj hm
    refine ⟨h, ?_⟩
    rw [List.getElem?_map, h]
    rfl

/-- C4: for every layer index `i` of the filtered list for which `BlendFactory.getRenderer`
calls the renderer provider (with `params` a live reference), the request is among the requests
made; its options carry the shared `limits` and as failure policy `onTileErrorStrategyHttpRenderer`
if and only if `mapConfig.layerType(i)` is `http`, the default `onTileErrorStrategy` for every
other type (mapnik included); its params read as the shared params on every key but `layer`,
and `layer` is `i` itself for a layer that is not mapnik (the merged list for a mapnik one); and
the object `params` of the caller reads afterwards as it did before. -/
theorem getRenderer_request_options (layerType : Nat → String) (filteredLayers : List Nat)
    (provider : Request → ProviderReply) (heap : Heap) (params : Nat) (limits : Option Obj)
    (q i : Nat) (req : Request) (hp : params < heap.length)
    (hi : filteredLayers[q]? = some i)
    (hreq : (dispatchLayers layerType filteredLayers params limits
      ⟨heap, false⟩ filteredLayers).2[q]? = some (some req)) :
    req ∈ (getRenderer layerType (Except.ok filteredLayers) provider heap params limits).requests ∧
    req.rendererOptions.limits = limits ∧
    (req.rendererOptions.onTileErrorStrategy = ErrorStrategy.http ↔ layerType i = "http") ∧
    (layerType i ≠ "http" → req.rendererOptions.onTileErrorStrategy = ErrorStrategy.default) ∧
    (layerType i = "http" →
      req.rendererOptions.onTileErrorStrategy.run = onTileErrorStrategyHttpRenderer) ∧
    (layerType i ≠ "http" → req.rendererOptions.onTileErrorStrategy.run = onTileErrorStrategy) ∧
    (∀ k, k ≠ "layer" → Obj.get req.rendererParams k = Obj.get (Heap.read heap params) k) ∧
    (layerType i ≠ "mapnik" → Obj.prop req.rendererParams "layer" = JsVal.num i) ∧
    (layerType i = "mapnik" → Obj.prop req.rendererParams "layer" =
      JsVal.str (getMapnikLayersFromFilter layerType filteredLayers)) ∧
    Heap.read (getRenderer layerType (Except.ok filteredLayers) provider heap params limits).heap
      params = Heap.read heap params := by
  obtain ⟨hslots, ext, hheap⟩ := dispatchLayers_eq layerType filteredLayers params limits
    filteredLayers ⟨heap, false⟩ hp
  simp only at hslots hheap
  have hmem : req ∈ (dispatchLayers layerType filteredLayers params limits
      ⟨heap, false⟩ filteredLayers).2.filterMap id := by
    rw [List.mem_filterMap]
    exact ⟨some req, List.getElem?_mem hreq, rfl⟩
  rw [hslots] at hreq
  have h := dispatchSlots_request layerType filteredLayers (Heap.read heap params) limits false
    filteredLayers q i req hi hreq
  obtain ⟨hreqs, hfinal⟩ : (getRenderer layerType (Except.ok filteredLayers) provider heap params
      limits).requests = (dispatchLayers layerType filteredLayers params limits
        ⟨heap, false⟩ filteredLayers).2.filterMap id ∧
      (getRenderer layerType (Except.ok filteredLayers) provider heap params limits).heap =
        (dispatchLayers layerType filteredLayers params limits
          ⟨heap, false⟩ filteredLayers).1.heap := by
    cases filteredLayers with
    | nil => simp at hi
    | cons i0 rest => exact getRenderer_ok_cons layerType i0 rest provider heap params limits
  refine ⟨hreqs ▸ hmem, ?_, ?_, ?_, ?_, ?_, ?_, ?_, ?_, ?_⟩
  · rw [h]
  · rw [h]
    by_cases hh : layerType i = "http" <;> simp [hh]
  · intro hh
    rw [h]
    simp [hh]
  · intro hh
    rw [h]
    simp [hh, ErrorStrategy.run]
  · intro hh
    rw [h]
    simp [hh, ErrorStrategy.run]
  · intro k hk
    rw [h]
    by_cases hm : layerType i = "mapnik"
    · simp only [hm, if_true]
      rw [Obj.get_set_ne _ _ _ _ hk, Obj.get_set_ne _ _ _ _ hk]
    · simp only [hm, if_false, List.append_nil]
      rw [Obj.get_set_ne _ _ _ _ hk]
  · intro hm
    rw [h]
    simp [hm, Obj.prop_layer_last]
  · intro hm
    rw [h]
    simp [hm, Obj.prop_layer_last_two]
  · rw [hfinal, hheap, Heap.read_append_left _ _ _ hp]

/-- C5: `BlendFactory.getRenderer` fails without dispatching anything when there is nothing to
render. If the layer filter yields an empty list the callback receives an `Error` with message
`No renderers`; if the layer filter throws, the callback receives the thrown error; in both cases
the renderer provider is not called, no composite renderer is produced and the heap is as it
was. -/
theorem getRenderer_no_layers (layerType : Nat → String) (provider : Request → ProviderReply)
    (heap : Heap) (params : Nat) (limits : Option Obj) (err : JsError) :
    (getRenderer layerType (Except.ok []) provider heap params limits).callback =
      Except.error (JsError.new "No renderers") ∧
    (JsError.new "No renderers").message = some "No renderers" ∧
    (getRenderer layerType (Except.ok []) provider heap params limits).requests = [] ∧
    (getRenderer layerType (Except.error err) provider heap params limits).callback =
      Except.error err ∧
    (getRenderer layerType (Except.error err) provider heap params limits).requests = [] ∧
    (getRenderer layerType (Except.ok []) provider heap params limits).heap = heap ∧
    (getRenderer layerType (Except.error err) provider heap params limits).heap = heap :=
  ⟨rfl, rfl, rfl, rfl, rfl, rfl, rfl⟩

theorem promiseAll_length (l : List Settled) (renderers : List (Option Nat))
    (h : promiseAll l = Except.ok renderers) : renderers.length = l.length := by
  induction l generalizing renderers with
  | nil =>
    simp only [promiseAll, Except.ok.injEq] at h
    simp [← h]
  | cons s rest ih =>
    cases s with
    | rejected err => simp [promiseAll] at h
    | resolved r =>
      simp only [promiseAll] at h
      cases hrest : promiseAll rest with
      | error e => simp [hrest] at h
      | ok rs =>
        simp only [hrest, Except.ok.injEq] at h
        simp [← h, ih rs hrest]

/-- After a dispatch the callback never receives the error `No renderers`: when no promise is
rejected it receives a composite renderer, whatever the resolved renderers are. -/
theorem getRenderer_dispatched_ok (layerType : Nat → String) (i : Nat) (rest : List Nat)
    (provider : Request → ProviderReply) (heap : Heap) (params : Nat) (limits : Option Obj)
    (renderers : List (Option Nat))
    (h : promiseAll ((dispatchLayers layerType (i :: rest) params limits
      ⟨heap, false⟩ (i :: rest)).2.map (layerPromise provider)) = Except.ok renderers) :
    (getRenderer layerType (Except.ok (i :: rest)) provider heap params limits).callback =
      Except.ok ⟨renderers.filterMap id⟩ := by
  have hlen := promiseAll_length _ _ h
  have hpos : renderers.length ≠ 0 := by
    rw [hlen, List.length_map]
    simp [dispatchLayers]
  simp [getRenderer, h, hpos]

/-- C6, at the input where the code departs from it: one mapnik layer, for which the provider
calls back with neither an error nor a renderer. Every dispatched renderer resolves to empty,
and the callback receives a composite renderer over the empty list, not the error
`No renderers`: `getRenderer` tests the length of the resolved list before it removes the empty
entries, and that list is as long as the filtered list, which is not empty. -/
theorem getRenderer_all_empty_composite :
    promiseAll ((dispatchLayers (fun _ => "mapnik") [0] 0 none ⟨[[]], false⟩ [0]).2.map
      (layerPromise (fun _ => ⟨none, none⟩))) = Except.ok [none] ∧
    (getRenderer (fun _ => "mapnik") (Except.ok [0]) (fun _ => ⟨none, none⟩) [[]] 0
      none).callback = Except.ok ⟨[]⟩ ∧
    (getRenderer (fun _ => "mapnik") (Except.ok [0]) (fun _ => ⟨none, none⟩) [[]] 0
      none).callback ≠ Except.error (JsError.new "No renderers") := by
  refine ⟨rfl, rfl, ?_⟩
  intro h
  have h1 : (getRenderer (fun _ => "mapnik") (Except.ok [0]) (fun _ => ⟨none, none⟩) [[]] 0
      none).callback = Except.ok ⟨[]⟩ := rfl
  rw [h1] at h
  cases h

/-- C1 at a concrete configuration: layers 0 and 2 are mapnik, layer 1 is http; two requests
are made, the first with the merged list `0,2`. -/
theorem getRenderer_mapnik_dedup_witness :
    0 < [[("dbname", JsVal.str "db")]].length ∧
    1 ≤ ([0, 1, 2].filter
      (fun j => (fun i => if i = 1 then "http" else "mapnik") j == "mapnik")).length ∧
    (getRenderer (fun i => if i = 1 then "http" else "mapnik") (Except.ok [0, 1, 2])
      (fun _ => ⟨none, some 7⟩) [[("dbname", JsVal.str "db")]] 0 none).requests.length = 2 :=
  ⟨by decide, by decide,
    (getRenderer_mapnik_dedup (fun i => if i = 1 then "http" else "mapnik") [0, 1, 2]
      (fun _ => ⟨none, some 7⟩) [[("dbname", JsVal.str "db")]] 0 none
      (by decide) (by decide)).2.2.2.2⟩

/-- C4 at a concrete configuration: the http layer 1 of three layers gets the http policy and
its own index. -/
theorem getRenderer_request_options_witness :
    (dispatchLayers (fun i => if i = 1 then "http" else "mapnik") [0, 1, 2] 0 none
      ⟨[[("dbname", JsVal.str "db")]], false⟩ [0, 1, 2]).2[1]? =
      some (some ⟨[("dbname", JsVal.str "db"), ("layer", JsVal.num 1)],
        ⟨none, ErrorStrategy.http⟩⟩) ∧
    Heap.read (getRenderer (fun i => if i = 1 then "http" else "mapnik") (Except.ok [0, 1, 2])
      (fun _ => ⟨none, some 7⟩) [[("dbname", JsVal.str "db")]] 0 none).heap 0 =
      Heap.read [[("dbname", JsVal.str "db")]] 0 :=
  ⟨by decide,
    (getRenderer_request_options (fun i => if i = 1 then "http" else "mapnik") [0, 1, 2]
      (fun _ => ⟨none, some 7⟩) [[("dbname", JsVal.str "db")]] 0 none 1 1
      ⟨[("dbname", JsVal.str "db"), ("layer", JsVal.num 1)], ⟨none, ErrorStrategy.http⟩⟩
      (by decide) (by decide) (by decide)).2.2.2.2.2.2.2.2.2⟩


/-! ## Properties of the tile query and of the metadata -/

/-- C11, as the code has it: `getTileData` hands the query to the executor exactly once and maps
the reply into its callback. On an error the callback receives that error and no rows, headers or
stats; the message of the error is prefixed with `TorqueRenderer: ` when it is a non-empty
string, and the error is handed on as it is when it has no message or an empty one. On success
the callback receives no error, `data.rows`, the headers `{'Content-Type': 'application/json'}`
and the query timings. -/
theorem getTileData_callback (sql : String → QueryReply) (query : String) (times : Obj) :
    (getTileData sql query times).queries = [query] ∧
    (∀ err, (sql query).err = some err →
      (getTileData sql query times).callback.rows = none ∧
      (getTileData sql query times).callback.headers = none ∧
      (getTileData sql query times).callback.stats = none ∧
      (∀ message, err.message = some message → message ≠ "" →
        (getTileData sql query times).callback.err =
          some ⟨some ("TorqueRenderer: " ++ message), err.code⟩) ∧
      (err.message = none ∨ err.message = some "" →
        (getTileData sql query times).callback.err = some err)) ∧
    ((sql query).err = none →
      (getTileData sql query times).callback =
        ⟨none, some (sql query).rows, some [("Content-Type", JsVal.str "application/json")],
          some times⟩) := by
  refine ⟨?_, ?_, ?_⟩
  · cases h : (sql query).err <;> simp [getTileData, h]
  · intro err h
    refine ⟨by simp [getTileData, h], by simp [getTileData, h], by simp [getTileData, h], ?_, ?_⟩
    · intro message hm hne
      simp [getTileData, h, hm, hne]
    · rintro (hm | hm)
      · simp [getTileData, h, hm]
      · obtain ⟨m, c⟩ := err
        simp only at hm
        subst hm
        simp [getTileData, h]
  · intro h
    simp [getTileData, h]

/-- C11 at concrete replies: a failing query with a message, and a query with two rows. -/
theorem getTileData_callback_witness :
    (getTileData (fun _ => ⟨some ⟨some "syntax error", JsVal.str "42601"⟩, []⟩) "select 1"
        []).callback.err = some ⟨some "TorqueRenderer: syntax error", JsVal.str "42601"⟩ ∧
    (getTileData (fun _ => ⟨none, [[("x__uint8", JsVal.num 1)], []]⟩) "select 1"
        [("query", JsVal.num 3)]).callback =
      ⟨none, some [[("x__uint8", JsVal.num 1)], []],
        some [("Content-Type", JsVal.str "application/json")], some [("query", JsVal.num 3)]⟩ :=
  ⟨((getTileData_callback (fun _ => ⟨some ⟨some "syntax error", JsVal.str "42601"⟩, []⟩)
      "select 1" []).2.1 ⟨some "syntax error", JsVal.str "42601"⟩ rfl).2.2.2.1
      "syntax error" rfl (by decide),
    (getTileData_callback (fun _ => ⟨none, [[("x__uint8", JsVal.num 1)], []]⟩) "select 1"
      [("query", JsVal.num 3)]).2.2 rfl⟩

/-- C11 as stated fails: an error without a message (and one with the empty message) reaches the
callback without the prefix `TorqueRenderer: `. -/
theorem getTileData_error_without_message :
    (getTileData (fun _ => ⟨some ⟨none, JsVal.str "ECONNREFUSED"⟩, []⟩) "select 1"
        []).callback.err = some ⟨none, JsVal.str "ECONNREFUSED"⟩ ∧
    (getTileData (fun _ => ⟨some ⟨some "", JsVal.undefined⟩, []⟩) "select 1"
        []).callback.err = some ⟨some "", JsVal.undefined⟩ ∧
    ¬ ∀ (sql : String → QueryReply) (query : String) (times : Obj) (err : JsError),
      (sql query).err = some err →
      ∃ annotated message, (getTileData sql query times).callback.err = some annotated ∧
        annotated.message = some ("TorqueRenderer: " ++ message) := by
  refine ⟨by decide, by decide, ?_⟩
  intro h
  obtain ⟨annotated, message, h1, h2⟩ :=
    h (fun _ => ⟨some ⟨none, JsVal.str "ECONNREFUSED"⟩, []⟩) "select 1" []
      ⟨none, JsVal.str "ECONNREFUSED"⟩ rfl
  have h3 : (getTileData (fun _ => ⟨some ⟨none, JsVal.str "ECONNREFUSED"⟩, []⟩) "select 1"
      []).callback.err = some ⟨none, JsVal.str "ECONNREFUSED"⟩ := by decide
  rw [h3] at h1
  simp only [Option.some.injEq] at h1
  subst h1
  simp at h2

theorem toInt32_range (x : ℚ) : -2 ^ 31 ≤ toInt32 x ∧ toInt32 x < 2 ^ 31 := by
  simp only [toInt32]
  norm_num
  split_ifs <;> omega

theorem toInt32_of_truncated (x : ℚ) (t : ℤ)
    (ht : t = if 0 ≤ x then Int.floor x else Int.ceil x)
    (hlo : -2 ^ 31 ≤ t) (hhi : t < 2 ^ 31) : toInt32 x = t := by
  simp only [toInt32, ← ht]
  norm_num at hlo hhi ⊢
  split_ifs <;> omega

/-- C12: `getMetadata` derives its result from `attrs` alone and makes no query: `start` and
`end` are `attrs.start * 1000` and `attrs.end * 1000`, `steps` is the number `attrs.steps`,
`data_steps` is `attrs.data_steps` converted to a 32-bit integer (its fraction dropped towards
zero whenever that fits in 32 bits, which covers every integer from `-2^31` to `2^31 - 1`),
`column_type` is `date` if and only if `attrs.is_time` is truthy and `number` otherwise, and the
callback receives no error. -/
theorem getMetadata_from_attrs (attrs : TorqueAttrs) :
    (getMetadata attrs).queries = [] ∧
    (getMetadata attrs).err = none ∧
    (getMetadata attrs).metadata.start = attrs.start * 1000 ∧
    (getMetadata attrs).metadata.end_ = attrs.end_ * 1000 ∧
    (getMetadata attrs).metadata.steps = attrs.steps ∧
    (getMetadata attrs).metadata.data_steps = toInt32 attrs.data_steps ∧
    (-2 ^ 31 ≤ (getMetadata attrs).metadata.data_steps ∧
      (getMetadata attrs).metadata.data_steps < 2 ^ 31) ∧
    (0 ≤ attrs.data_steps → attrs.data_steps < 2 ^ 31 →
      (getMetadata attrs).metadata.data_steps = Int.floor attrs.data_steps) ∧
    (attrs.data_steps ≤ 0 → -2 ^ 31 ≤ attrs.data_steps →
      (getMetadata attrs).metadata.data_steps = Int.ceil attrs.data_steps) ∧
    ((getMetadata attrs).metadata.column_type = "date" ↔ attrs.is_time.truthy = true) ∧
    (attrs.is_time.truthy = false → (getMetadata attrs).metadata.column_type = "number") := by
  refine ⟨rfl, rfl, rfl, rfl, rfl, rfl, toInt32_range attrs.data_steps, ?_, ?_, ?_, ?_⟩
  · intro h0 h1
    apply toInt32_of_truncated
    · simp [h0]
    · have : (0 : ℤ) ≤ Int.floor attrs.data_steps := Int.floor_nonneg.2 h0
      omega
    · have : Int.floor attrs.data_steps < 2 ^ 31 := by
        rw [Int.floor_lt]
        exact_mod_cast h1
      exact this
  · intro h0 h1
    apply toInt32_of_truncated
    · by_cases h : 0 ≤ attrs.data_steps
      · have hz : attrs.data_steps = 0 := le_antisymm h0 h
        simp [hz]
      · simp [h]
    · have : (-2 ^ 31 : ℤ) ≤ Int.ceil attrs.data_steps := by
        rw [Int.le_ceil_iff]
        push_cast
        linarith
      exact this
    · have : Int.ceil attrs.data_steps ≤ 0 := Int.ceil_le.2 (by exact_mod_cast h0)
      omega
  · by_cases h : attrs.is_time.truthy = true
    · simp [getMetadata, h]
    · simp only [getMetadata, h, Bool.false_eq_true, if_false, iff_false]
      decide
  · intro h
    simp [getMetadata, h]

/-- C12 at concrete attributes: a time column, `data_steps` 7.9 and -7.9. -/
theorem getMetadata_from_attrs_witness :
    (getMetadata ⟨1, 2, 256, 79 / 10, JsVal.bool true⟩).metadata.data_steps =
      Int.floor (79 / 10 : ℚ) ∧
    (getMetadata ⟨1, 2, 256, -79 / 10, JsVal.num 0⟩).metadata.column_type = "number" :=
  ⟨(getMetadata_from_attrs ⟨1, 2, 256, 79 / 10, JsVal.bool true⟩).2.2.2.2.2.2.2.1
      (by norm_num) (by norm_num),
    (getMetadata_from_attrs ⟨1, 2, 256, -79 / 10, JsVal.num 0⟩).2.2.2.2.2.2.2.2.2.2 (by decide)⟩

/-- C17: the unbuffered boxes of `cdb_XYZ_Extent` tile the extent without gap or overlap. -/
theorem cdb_XYZ_Extent_tiling (ts mg bs res : ℚ) (x y : ℤ) (z : ℕ) (hts : 0 < ts)
    (hmg : 0 < mg) :
    (cdb_XYZ_Extent ts mg bs res x y z).xmax = (cdb_XYZ_Extent ts mg bs res (x + 1) y z).xmin ∧
    (cdb_XYZ_Extent ts mg bs res x y z).ymax = (cdb_XYZ_Extent ts mg bs res x (y + 1) z).ymin ∧
    (cdb_XYZ_Extent ts mg bs res 0 y z).xmin = -mg / 2 ∧
    (cdb_XYZ_Extent ts mg bs res (2 ^ z - 1) y z).xmax = mg / 2 ∧
    (cdb_XYZ_Extent ts mg bs res x 0 z).ymin = mg / 2 ∧
    (cdb_XYZ_Extent ts mg bs res x (2 ^ z - 1) z).ymax = -mg / 2 ∧
    (cdb_XYZ_Extent ts mg bs res x y z).ymax < (cdb_XYZ_Extent ts mg bs res x y z).ymin := by
  have h0 : ts ≠ 0 := ne_of_gt hts
  have hh := cdb_XYZ_Extent_height ts mg bs res x y z h0
  have hsz : (0 : ℚ) < mg / 2 ^ z := by positivity
  refine ⟨?_, ?_, ?_, ?_, ?_, ?_, by linarith⟩
  · simp only [cdb_XYZ_Extent, cdb_XYZ_Resolution]
    push_cast
    ring
  · simp only [cdb_XYZ_Extent, cdb_XYZ_Resolution]
    push_cast
    ring
  · simp only [cdb_XYZ_Extent, cdb_XYZ_Resolution]
    field_simp
  · simp only [cdb_XYZ_Extent, cdb_XYZ_Resolution]
    push_cast
    field_simp
    ring
  · simp only [cdb_XYZ_Extent, cdb_XYZ_Resolution]
    field_simp
  · simp only [cdb_XYZ_Extent, cdb_XYZ_Resolution]
    push_cast
    field_simp
    ring

/-- C17 at the default tiling: tiles `(1, 0, 0)` and `(1, 1, 0)` share an edge. -/
theorem cdb_XYZ_Extent_tiling_witness :
    (0 : ℚ) < 256 ∧ (0 : ℚ) < 40075017 ∧
    (cdb_XYZ_Extent 256 40075017 0 1 0 0 1).xmax =
      (cdb_XYZ_Extent 256 40075017 0 1 (0 + 1) 0 1).xmin :=
  ⟨by norm_num, by norm_num,
    (cdb_XYZ_Extent_tiling 256 40075017 0 1 0 0 1 (by norm_num) (by norm_num)).1⟩


/-! ## Properties of the filter engine -/

theorem rewriteLayers_nil (layers : List Layer) : rewriteLayers layers [] = layers := by
  cases layers <;> rfl

theorem setFiltersParams_ok (config filtered : MapConfig) (params : FilterParameters)
    (h : config.setFiltersParams params = Except.ok filtered) :
    filtered.layers = config.layers ∧
      allFilters config.layers params.layers = Except.ok filtered.filters := by
  unfold MapConfig.setFiltersParams at h
  cases hf : allFilters config.layers params.layers with
  | error err => simp [hf] at h
  | ok filters =>
    simp only [hf, Except.ok.injEq] at h
    subst h
    exact ⟨rfl, rfl⟩

theorem Filter.sql_length (filter : Filter) (source : String) :
    source.length < (filter.sql source).length := by
  simp only [Filter.sql, String.length_append]
  have h : "SELECT * FROM (".length = 15 := by decide
  omega

theorem applyFilters_length (filters : List (String × Filter)) (source : String) :
    source.length ≤ (applyFilters filters source).length ∧
      (filters ≠ [] → source.length < (applyFilters filters source).length) := by
  induction filters generalizing source with
  | nil => simp [applyFilters]
  | cons entry rest ih =>
    have h1 := Filter.sql_length entry.2 source
    have h2 := (ih (entry.2.sql source)).1
    simp only [applyFilters, List.foldl_cons] at h2 ⊢
    exact ⟨by omega, fun _ => by omega⟩

theorem layerFilters_ne_nil (widgets : List (String × Widget)) (args : List (String × FilterArgs))
    (filters : List (String × Filter)) (h : layerFilters widgets args = Except.ok filters)
    (hne : args ≠ []) : filters ≠ [] := by
  cases args with
  | nil => exact absurd rfl hne
  | cons entry rest =>
    obtain ⟨widgetId, a⟩ := entry
    simp only [layerFilters] at h
    cases hw : widgets.lookup widgetId with
    | none => simp [hw] at h
    | some widget =>
      cases hf : widgetFilter widget a with
      | error err => simp [hw, hf] at h
      | ok filter =>
        cases hr : layerFilters widgets rest with
        | error err => simp [hw, hf, hr] at h
        | ok others =>
          simp only [hw, hf, hr, Except.ok.injEq] at h
          rw [← h]
          simp

theorem rewriteLayers_ne (layers : List Layer) (params : List (List (String × FilterArgs)))
    (filters : List (List (String × Filter)))
    (h : allFilters layers params = Except.ok filters)
    (hne : ∃ entry ∈ params, entry ≠ []) : rewriteLayers layers filters ≠ layers := by
  induction params generalizing layers filters with
  | nil => simp at hne
  | cons args rest ih =>
    cases layers with
    | nil => simp [allFilters] at h
    | cons layer others =>
      simp only [allFilters] at h
      cases hf : layerFilters layer.widgets args with
      | error err => simp [hf] at h
      | ok fs =>
        cases hr : allFilters others rest with
        | error err => simp [hf, hr] at h
        | ok frest =>
          simp only [hf, hr, Except.ok.injEq] at h
          subst h
          simp only [rewriteLayers, ne_eq, List.cons.injEq, not_and]
          intro hhead
          by_cases ha : args = []
          · obtain ⟨entry, hmem, hentry⟩ := hne
            rcases List.mem_cons.1 hmem with heq | hin
            · exact absurd (heq ▸ ha) hentry
            · exact ih others frest hr ⟨entry, hin, hentry⟩
          · have hfs := layerFilters_ne_nil layer.widgets args fs hf ha
            have hlen := (applyFilters_length fs layer.sql).2 hfs
            have hsql : applyFilters fs layer.sql = layer.sql := congrArg Layer.sql hhead
            rw [hsql] at hlen
            exact absurd hlen (lt_irrefl _)

/-- C13: applying and then clearing filters is a round trip. For every configuration created
from layers and every valid filter parameters, after `setFiltersParams` followed by
`clearFilters` the configuration is the created one again, its `id()` is the `id()` computed
before, and the `sql()` of every widget is the unfiltered query built from the original `sql` of
its layer; while filters are applied (the parameters name at least one) the `id()` differs from
the original, for a fingerprint function that separates different contents. -/
theorem setFiltersParams_clearFilters_roundtrip {ι : Type} (hash : List Layer → ι)
    (layers : List Layer) (params : FilterParameters) (filtered : MapConfig)
    (hvalid : (MapConfig.create layers).setFiltersParams params = Except.ok filtered) :
    filtered.clearFilters = MapConfig.create layers ∧
    MapConfig.id hash filtered.clearFilters = MapConfig.id hash (MapConfig.create layers) ∧
    (∀ (layerIndex : Nat) (widgetId : String) (layer : Layer) (widget : Widget),
      layers[layerIndex]? = some layer → layer.widgets.lookup widgetId = some widget →
      ∃ w, filtered.clearFilters.getWidget layerIndex widgetId = some w ∧
        w.sql none = widget.query layer.sql) ∧
    ((∃ entry ∈ params.layers, entry ≠ []) → Function.Injective hash →
      MapConfig.id hash filtered ≠ MapConfig.id hash (MapConfig.create layers)) := by
  obtain ⟨hlayers, hfilters⟩ := setFiltersParams_ok _ _ _ hvalid
  have hclear : filtered.clearFilters = MapConfig.create layers := by
    simp only [MapConfig.clearFilters, MapConfig.create] at hlayers ⊢
    rw [hlayers]
  refine ⟨hclear, by rw [hclear], ?_, ?_⟩
  · intro layerIndex widgetId layer widget hl hw
    refine ⟨⟨widget, layer.sql⟩, ?_, rfl⟩
    rw [hclear]
    simp [MapConfig.getWidget, MapConfig.create, hl, hw]
  · intro hne hinj hid
    have hcontent := hinj hid
    simp only [MapConfig.create] at hlayers hfilters hcontent
    rw [hlayers, rewriteLayers_nil] at hcontent
    exact rewriteLayers_ne layers params.layers filtered.filters hfilters hne hcontent


/-- C13 at the configuration of the unit test, with `accept: ['Spain']` and the content itself
as its fingerprint. -/
theorem setFiltersParams_clearFilters_roundtrip_witness :
    (MapConfig.create [⟨"mapnik", "select * from populated_places_simple_reduced",
        [("adm0name", ⟨WidgetType.aggregation, "adm0name"⟩)]⟩]).setFiltersParams
        ⟨[[("adm0name", ⟨some ["Spain"], none, JsVal.undefined, JsVal.undefined⟩)]]⟩ =
      Except.ok ⟨[⟨"mapnik", "select * from populated_places_simple_reduced",
          [("adm0name", ⟨WidgetType.aggregation, "adm0name"⟩)]⟩],
        [[("adm0name", Filter.accept "adm0name" ["Spain"])]]⟩ ∧
    MapConfig.id (fun content => content)
        (MapConfig.clearFilters ⟨[⟨"mapnik", "select * from populated_places_simple_reduced",
          [("adm0name", ⟨WidgetType.aggregation, "adm0name"⟩)]⟩],
        [[("adm0name", Filter.accept "adm0name" ["Spain"])]]⟩) =
      MapConfig.id (fun content => content)
        (MapConfig.create [⟨"mapnik", "select * from populated_places_simple_reduced",
          [("adm0name", ⟨WidgetType.aggregation, "adm0name"⟩)]⟩]) :=
  ⟨rfl,
    (setFiltersParams_clearFilters_roundtrip (fun content => content)
      [⟨"mapnik", "select * from populated_places_simple_reduced",
        [("adm0name", ⟨WidgetType.aggregation, "adm0name"⟩)]⟩]
      ⟨[[("adm0name", ⟨some ["Spain"], none, JsVal.undefined, JsVal.undefined⟩)]]⟩
      ⟨[⟨"mapnik", "select * from populated_places_simple_reduced",
          [("adm0name", ⟨WidgetType.aggregation, "adm0name"⟩)]⟩],
        [[("adm0name", Filter.accept "adm0name" ["Spain"])]]⟩ rfl).2.1⟩

theorem allFilters_single (layers : List Layer) (layerIndex : Nat) (layer : Layer)
    (args : List (String × FilterArgs)) (hl : layers[layerIndex]? = some layer) :
    allFilters layers (List.replicate layerIndex [] ++ [args]) =
      match layerFilters layer.widgets args with
      | Except.error err => Except.error err
      | Except.ok filters => Except.ok (List.replicate layerIndex [] ++ [filters]) := by
  induction layerIndex generalizing layers with
  | zero =>
    cases layers with
    | nil => simp at hl
    | cons first others =>
      simp only [List.getElem?_cons_zero, Option.some.injEq] at hl
      subst hl
      cases hf : layerFilters first.widgets args with
      | error err => simp [allFilters, hf]
      | ok filters =>
        cases others <;> simp [allFilters, hf]
  | succ n ih =>
    cases layers with
    | nil => simp at hl
    | cons first others =>
      simp only [List.getElem?_cons_succ] at hl
      have h := ih others hl
      cases hf : layerFilters layer.widgets args with
      | error err =>
        simp only [hf] at h
        simp [List.replicate_succ, allFilters, layerFilters, h]
      | ok filters =>
        simp only [hf] at h
        simp [List.replicate_succ, allFilters, layerFilters, h]

theorem layerFilters_single (widgets : List (String × Widget)) (widgetId : String)
    (widget : Widget) (args : FilterArgs) (hw : widgets.lookup widgetId = some widget) :
    layerFilters widgets [(widgetId, args)] =
      match widgetFilter widget args with
      | Except.error err => Except.error err
      | Except.ok filter => Except.ok [(widgetId, filter)] := by
  cases hf : widgetFilter widget args <;> simp [layerFilters, hw, hf]

/-- A single invalid entry makes `setFiltersParams` fail with the error of its validation. -/
theorem setFiltersParams_single_error (layers : List Layer) (layerIndex : Nat) (layer : Layer)
    (widgetId : String) (widget : Widget) (args : FilterArgs) (err : FilterError)
    (hl : layers[layerIndex]? = some layer) (hw : layer.widgets.lookup widgetId = some widget)
    (hf : widgetFilter widget args = Except.error err) :
    (MapConfig.create layers).setFiltersParams
      ⟨List.replicate layerIndex [] ++ [[(widgetId, args)]]⟩ = Except.error err := by
  simp [MapConfig.setFiltersParams, MapConfig.create, allFilters_single layers layerIndex layer _ hl,
    layerFilters_single layer.widgets widgetId widget args hw, hf]

/-- A single valid entry gives the configuration with that one filter on its layer. -/
theorem setFiltersParams_single_ok (layers : List Layer) (layerIndex : Nat) (layer : Layer)
    (widgetId : String) (widget : Widget) (args : FilterArgs) (filter : Filter)
    (hl : layers[layerIndex]? = some layer) (hw : layer.widgets.lookup widgetId = some widget)
    (hf : widgetFilter widget args = Except.ok filter) :
    (MapConfig.create layers).setFiltersParams
      ⟨List.replicate layerIndex [] ++ [[(widgetId, args)]]⟩ =
      Except.ok ⟨layers, List.replicate layerIndex [] ++ [[(widgetId, filter)]]⟩ := by
  simp [MapConfig.setFiltersParams, MapConfig.create, allFilters_single layers layerIndex layer _ hl,
    layerFilters_single layer.widgets widgetId widget args hw, hf]

theorem getLayerFilters_single (layers : List Layer) (layerIndex : Nat)
    (filters : List (String × Filter)) :
    MapConfig.getLayerFilters ⟨layers, List.replicate layerIndex [] ++ [filters]⟩ layerIndex =
      filters := by
  simp only [MapConfig.getLayerFilters]
  induction layerIndex with
  | zero => rfl
  | succ n ih => simp [List.replicate_succ]

theorem getLayer_single (layers : List Layer) (layerIndex : Nat) (layer : Layer)
    (filters : List (String × Filter)) (hl : layers[layerIndex]? = some layer) :
    MapConfig.getLayer ⟨layers, List.replicate layerIndex [] ++ [filters]⟩ layerIndex =
      some { layer with sql := applyFilters filters layer.sql } := by
  simp only [MapConfig.getLayer]
  induction layerIndex generalizing layers with
  | zero =>
    cases layers with
    | nil => simp at hl
    | cons first others =>
      simp only [List.getElem?_cons_zero, Option.some.injEq] at hl
      subst hl
      simp [rewriteLayers]
  | succ n ih =>
    cases layers with
    | nil => simp at hl
    | cons first others =>
      simp only [List.getElem?_cons_succ] at hl
      simpa [List.replicate_succ, rewriteLayers] using ih others hl

theorem getWidget_found (layers : List Layer) (filters : List (List (String × Filter)))
    (layerIndex : Nat) (layer : Layer) (widgetId : String) (widget : Widget)
    (hl : layers[layerIndex]? = some layer) (hw : layer.widgets.lookup widgetId = some widget) :
    MapConfig.getWidget ⟨layers, filters⟩ layerIndex widgetId = some ⟨widget, layer.sql⟩ := by
  simp [MapConfig.getWidget, hl, hw]

theorem finiteNumber_eq_none (v : JsVal) : finiteNumber v = none ↔ ∀ n : ℚ, v ≠ JsVal.num n := by
  cases v <;> simp [finiteNumber]


theorem layerFilters_valid (widgets : List (String × Widget)) (args : List (String × FilterArgs))
    (filters : List (String × Filter)) (h : layerFilters widgets args = Except.ok filters)
    (widgetId : String) (a : FilterArgs) (hmem : (widgetId, a) ∈ args) :
    ∃ widget filter, widgets.lookup widgetId = some widget ∧
      widgetFilter widget a = Except.ok filter := by
  induction args generalizing filters with
  | nil => simp at hmem
  | cons entry rest ih =>
    obtain ⟨wid, b⟩ := entry
    simp only [layerFilters] at h
    cases hw : widgets.lookup wid with
    | none => simp [hw] at h
    | some widget =>
      cases hf : widgetFilter widget b with
      | error err => simp [hw, hf] at h
      | ok filter =>
        cases hr : layerFilters widgets rest with
        | error err => simp [hw, hf, hr] at h
        | ok others =>
          rcases List.mem_cons.1 hmem with heq | hin
          · simp only [Prod.mk.injEq] at heq
            obtain ⟨h1, h2⟩ := heq
            subst h1 h2
            exact ⟨widget, filter, hw, hf⟩
          · exact ih others hr hin

theorem allFilters_valid (layers : List Layer) (params : List (List (String × FilterArgs)))
    (filters : List (List (String × Filter))) (h : allFilters layers params = Except.ok filters)
    (layerIndex : Nat) (entry : List (String × FilterArgs))
    (hp : params[layerIndex]? = some entry) (widgetId : String) (a : FilterArgs)
    (hmem : (widgetId, a) ∈ entry) :
    ∃ layer widget filter, layers[layerIndex]? = some layer ∧
      layer.widgets.lookup widgetId = some widget ∧ widgetFilter widget a = Except.ok filter := by
  induction params generalizing layers filters layerIndex with
  | nil => simp at hp
  | cons args rest ih =>
    cases layers with
    | nil => simp [allFilters] at h
    | cons layer others =>
      simp only [allFilters] at h
      cases hf : layerFilters layer.widgets args with
      | error err => simp [hf] at h
      | ok fs =>
        cases hr : allFilters others rest with
        | error err => simp [hf, hr] at h
        | ok frest =>
          cases layerIndex with
          | zero =>
            simp only [List.getElem?_cons_zero, Option.some.injEq] at hp
            subst hp
            obtain ⟨widget, filter, hw, hwf⟩ :=
              layerFilters_valid layer.widgets args fs hf widgetId a hmem
            exact ⟨layer, widget, filter, by simp, hw, hwf⟩
          | succ n =>
            simp only [List.getElem?_cons_succ] at hp
            obtain ⟨l, widget, filter, hl, hw, hwf⟩ := ih others frest hr n hp
            exact ⟨l, widget, filter, by simpa using hl, hw, hwf⟩

theorem widgetFilter_no_array (widget : Widget) (args : FilterArgs)
    (ht : widget.type = WidgetType.aggregation) (ha : args.accept = none)
    (hr : args.reject = none) :
    widgetFilter widget args = Except.error (FilterError.InvalidFilterArgs
      "Category filter expects at least one array in accept or reject params") := by
  simp [widgetFilter, ht, categoryFilter, ha, hr]

theorem widgetFilter_empty_array (widget : Widget) (args : FilterArgs)
    (ht : widget.type = WidgetType.aggregation)
    (he : args.accept = some [] ∨ args.reject = some []) :
    widgetFilter widget args = Except.error (FilterError.InvalidFilterArgs
      "Category filter expects to have at least one value in accept or reject arrays") := by
  obtain ⟨accept, reject, min, max⟩ := args
  simp only at he
  rcases he with he | he
  · subst he
    cases reject <;> simp [widgetFilter, ht, categoryFilter]
  · subst he
    cases accept <;> simp [widgetFilter, ht, categoryFilter]

theorem widgetFilter_no_number (widget : Widget) (args : FilterArgs) (queryBefore queryAfter : String)
    (ht : widget.type = WidgetType.histogram queryBefore queryAfter)
    (hmin : ∀ n : ℚ, args.min ≠ JsVal.num n) (hmax : ∀ n : ℚ, args.max ≠ JsVal.num n) :
    widgetFilter widget args = Except.error (FilterError.InvalidFilterArgs
      "Range filter expect to have at least one value in min or max numeric params") := by
  simp [widgetFilter, ht, rangeFilter, (finiteNumber_eq_none _).2 hmin,
    (finiteNumber_eq_none _).2 hmax]

/-- C14: `setFiltersParams` rejects invalid filter arguments at the call, with the message of
the filter kind. For a category (aggregation) widget the error is `Category filter expects at
least one array in accept or reject params` when neither `accept` nor `reject` is supplied, and
`Category filter expects to have at least one value in accept or reject arrays` when a supplied
`accept` or `reject` array is empty; for a range (histogram) widget it is `Range filter expect to
have at least one value in min or max numeric params` whenever neither `min` nor `max` is a
number. Whatever else the parameters hold, parameters with such arguments are rejected. -/
theorem setFiltersParams_invalid_args (layers : List Layer) (layerIndex : Nat) (layer : Layer)
    (widgetId : String) (widget : Widget) (args : FilterArgs)
    (hl : layers[layerIndex]? = some layer)
    (hw : layer.widgets.lookup widgetId = some widget) :
    (widget.type = WidgetType.aggregation → args.accept = none → args.reject = none →
      (MapConfig.create layers).setFiltersParams
          ⟨List.replicate layerIndex [] ++ [[(widgetId, args)]]⟩ =
        Except.error (FilterError.InvalidFilterArgs
          "Category filter expects at least one array in accept or reject params")) ∧
    (widget.type = WidgetType.aggregation → args.accept = some [] ∨ args.reject = some [] →
      (MapConfig.create layers).setFiltersParams
          ⟨List.replicate layerIndex [] ++ [[(widgetId, args)]]⟩ =
        Except.error (FilterError.InvalidFilterArgs
          "Category filter expects to have at least one value in accept or reject arrays")) ∧
    (∀ queryBefore queryAfter, widget.type = WidgetType.histogram queryBefore queryAfter →
      (∀ n : ℚ, args.min ≠ JsVal.num n) → (∀ n : ℚ, args.max ≠ JsVal.num n) →
      (MapConfig.create layers).setFiltersParams
          ⟨List.replicate layerIndex [] ++ [[(widgetId, args)]]⟩ =
        Except.error (FilterError.InvalidFilterArgs
          "Range filter expect to have at least one value in min or max numeric params")) ∧
    (∀ (params : FilterParameters) (entry : List (String × FilterArgs)) (err : FilterError),
      params.layers[layerIndex]? = some entry → (widgetId, args) ∈ entry →
      widgetFilter widget args = Except.error err →
      ∃ thrown, (MapConfig.create layers).setFiltersParams params = Except.error thrown) := by
  refine ⟨?_, ?_, ?_, ?_⟩
  · intro ht ha hr
    exact setFiltersParams_single_error layers layerIndex layer widgetId widget args _ hl hw
      (widgetFilter_no_array widget args ht ha hr)
  · intro ht he
    exact setFiltersParams_single_error layers layerIndex layer widgetId widget args _ hl hw
      (widgetFilter_empty_array widget args ht he)
  · intro queryBefore queryAfter ht hmin hmax
    exact setFiltersParams_single_error layers layerIndex layer widgetId widget args _ hl hw
      (widgetFilter_no_number widget args queryBefore queryAfter ht hmin hmax)
  · intro params entry err hp hmem herr
    cases hres : (MapConfig.create layers).setFiltersParams params with
    | error thrown => exact ⟨thrown, rfl⟩
    | ok filtered =>
      obtain ⟨-, hall⟩ := setFiltersParams_ok _ _ _ hres
      obtain ⟨l, w, f, hl1, hw1, hf1⟩ := allFilters_valid layers params.layers filtered.filters
        hall layerIndex entry hp widgetId args hmem
      simp only [hl, Option.some.injEq] at hl1
      subst hl1
      simp only [hw, Option.some.injEq] at hw1
      subst hw1
      rw [herr] at hf1
      cases hf1

/-- C14 at the configurations of the unit test: `{}` for the category widget and
`min: 'wadus'` for the range widget. -/
theorem setFiltersParams_invalid_args_witness :
    (MapConfig.create [⟨"mapnik", "select * from populated_places_simple_reduced",
        [("adm0name", ⟨WidgetType.aggregation, "adm0name"⟩)]⟩]).setFiltersParams
        ⟨List.replicate 0 [] ++
          [[("adm0name", ⟨none, none, JsVal.undefined, JsVal.undefined⟩)]]⟩ =
      Except.error (FilterError.InvalidFilterArgs
        "Category filter expects at least one array in accept or reject params") ∧
    (MapConfig.create [⟨"mapnik", "select * from populated_places_simple_reduced",
        [("adm0name", ⟨WidgetType.histogram "(" ")", "adm0name"⟩)]⟩]).setFiltersParams
        ⟨List.replicate 0 [] ++
          [[("adm0name", ⟨none, none, JsVal.str "wadus", JsVal.undefined⟩)]]⟩ =
      Except.error (FilterError.InvalidFilterArgs
        "Range filter expect to have at least one value in min or max numeric params") :=
  ⟨(setFiltersParams_invalid_args
      [⟨"mapnik", "select * from populated_places_simple_reduced",
        [("adm0name", ⟨WidgetType.aggregation, "adm0name"⟩)]⟩] 0
      ⟨"mapnik", "select * from populated_places_simple_reduced",
        [("adm0name", ⟨WidgetType.aggregation, "adm0name"⟩)]⟩ "adm0name"
      ⟨WidgetType.aggregation, "adm0name"⟩ ⟨none, none, JsVal.undefined, JsVal.undefined⟩
      rfl (by decide)).1 rfl rfl rfl,
    (setFiltersParams_invalid_args
      [⟨"mapnik", "select * from populated_places_simple_reduced",
        [("adm0name", ⟨WidgetType.histogram "(" ")", "adm0name"⟩)]⟩] 0
      ⟨"mapnik", "select * from populated_places_simple_reduced",
        [("adm0name", ⟨WidgetType.histogram "(" ")", "adm0name"⟩)]⟩ "adm0name"
      ⟨WidgetType.histogram "(" ")", "adm0name"⟩
      ⟨none, none, JsVal.str "wadus", JsVal.undefined⟩
      rfl (by decide)).2.2.1 "(" ")" rfl (by simp) (by simp)⟩


theorem Filter.sql_category (filter : Filter) (source : String)
    (h : filter.alias = "_cdb_category_filter") :
    filter.sql source =
      "SELECT * FROM (" ++ source ++ ") _cdb_category_filter WHERE " ++ filter.clause := by
  have hlit : (") _cdb_category_filter WHERE " : String) =
      ") " ++ "_cdb_category_filter" ++ " WHERE " := by decide
  simp only [Filter.sql, h, hlit, String.append_assoc]

theorem Filter.sql_range (filter : Filter) (source : String)
    (h : filter.alias = "_cdb_range_filter") :
    filter.sql source =
      "SELECT * FROM (" ++ source ++ ") " ++ ("_cdb_range_filter WHERE " ++ filter.clause) := by
  have hlit : ("_cdb_range_filter WHERE " : String) = "_cdb_range_filter" ++ " WHERE " := by
    decide
  simp only [Filter.sql, h, hlit, String.append_assoc]

/-- One valid filter on one widget of an aggregation: the layer and the widget afterwards. -/
theorem setFiltersParams_single_aggregation (layers : List Layer) (layerIndex : Nat)
    (layer : Layer) (widgetId column : String) (args : FilterArgs) (filter : Filter)
    (hl : layers[layerIndex]? = some layer)
    (hw : layer.widgets.lookup widgetId = some ⟨WidgetType.aggregation, column⟩)
    (hf : widgetFilter ⟨WidgetType.aggregation, column⟩ args = Except.ok filter) :
    ∃ filtered w,
      (MapConfig.create layers).setFiltersParams
        ⟨List.replicate layerIndex [] ++ [[(widgetId, args)]]⟩ = Except.ok filtered ∧
      (filtered.getLayer layerIndex).map Layer.sql = some (filter.sql layer.sql) ∧
      filtered.getWidget layerIndex widgetId = some w ∧
      w.sql (some (filtered.getLayerFilters layerIndex)) =
        "SELECT count(*) AS count, " ++ column ++ " FROM (" ++ filter.sql layer.sql ++
          ") _cdb_aggregation GROUP BY " ++ column ++ " ORDER BY count DESC" := by
  refine ⟨⟨layers, List.replicate layerIndex [] ++ [[(widgetId, filter)]]⟩,
    ⟨⟨WidgetType.aggregation, column⟩, layer.sql⟩,
    setFiltersParams_single_ok layers layerIndex layer widgetId _ args filter hl hw hf, ?_,
    getWidget_found layers _ layerIndex layer widgetId _ hl hw, ?_⟩
  · rw [getLayer_single layers layerIndex layer _ hl]
    simp [applyFilters]
  · rw [getLayerFilters_single]
    simp [LayerWidget.sql, Widget.query, applyFilters]

/-- C15: for every base query `S`, column `c` and non-empty value lists, a category filter on an
aggregation widget rewrites the `sql` of the layer to
`SELECT * FROM (S) _cdb_category_filter WHERE <clause>`, where the clause is `c IN ('v1',...)`
for accept only, `c NOT IN ('v1',...)` for reject only, and the accept clause, ` AND `, the
reject clause when both are supplied; and the `sql(getLayerFilters(i))` of the widget is
`SELECT count(*) AS count, c FROM (<that filtered query>) _cdb_aggregation GROUP BY c ORDER BY
count DESC`. -/
theorem setFiltersParams_category_sql (layers : List Layer) (layerIndex : Nat) (layer : Layer)
    (widgetId column : String) (accepted rejected : List String) (min max : JsVal)
    (hl : layers[layerIndex]? = some layer)
    (hw : layer.widgets.lookup widgetId = some ⟨WidgetType.aggregation, column⟩)
    (ha : accepted ≠ []) (hr : rejected ≠ []) :
    (∃ filtered w,
      (MapConfig.create layers).setFiltersParams
        ⟨List.replicate layerIndex [] ++ [[(widgetId, ⟨some accepted, none, min, max⟩)]]⟩ =
          Except.ok filtered ∧
      (filtered.getLayer layerIndex).map Layer.sql =
        some ("SELECT * FROM (" ++ layer.sql ++ ") _cdb_category_filter WHERE " ++
          (column ++ " IN (" ++ quotedValues accepted ++ ")")) ∧
      filtered.getWidget layerIndex widgetId = some w ∧
      w.sql (some (filtered.getLayerFilters layerIndex)) =
        "SELECT count(*) AS count, " ++ column ++ " FROM (" ++
          ("SELECT * FROM (" ++ layer.sql ++ ") _cdb_category_filter WHERE " ++
            (column ++ " IN (" ++ quotedValues accepted ++ ")")) ++
          ") _cdb_aggregation GROUP BY " ++ column ++ " ORDER BY count DESC") ∧
    (∃ filtered w,
      (MapConfig.create layers).setFiltersParams
        ⟨List.replicate layerIndex [] ++ [[(widgetId, ⟨none, some rejected, min, max⟩)]]⟩ =
          Except.ok filtered ∧
      (filtered.getLayer layerIndex).map Layer.sql =
        some ("SELECT * FROM (" ++ layer.sql ++ ") _cdb_category_filter WHERE " ++
          (column ++ " NOT IN (" ++ quotedValues rejected ++ ")")) ∧
      filtered.getWidget layerIndex widgetId = some w ∧
      w.sql (some (filtered.getLayerFilters layerIndex)) =
        "SELECT count(*) AS count, " ++ column ++ " FROM (" ++
          ("SELECT * FROM (" ++ layer.sql ++ ") _cdb_category_filter WHERE " ++
            (column ++ " NOT IN (" ++ quotedValues rejected ++ ")")) ++
          ") _cdb_aggregation GROUP BY " ++ column ++ " ORDER BY count DESC") ∧
    (∃ filtered w,
      (MapConfig.create layers).setFiltersParams
        ⟨List.replicate layerIndex [] ++
          [[(widgetId, ⟨some accepted, some rejected, min, max⟩)]]⟩ = Except.ok filtered ∧
      (filtered.getLayer layerIndex).map Layer.sql =
        some ("SELECT * FROM (" ++ layer.sql ++ ") _cdb_category_filter WHERE " ++
          (column ++ " IN (" ++ quotedValues accepted ++ ")" ++ " AND " ++
            (column ++ " NOT IN (" ++ quotedValues rejected ++ ")"))) ∧
      filtered.getWidget layerIndex widgetId = some w ∧
      w.sql (some (filtered.getLayerFilters layerIndex)) =
        "SELECT count(*) AS count, " ++ column ++ " FROM (" ++
          ("SELECT * FROM (" ++ layer.sql ++ ") _cdb_category_filter WHERE " ++
            (column ++ " IN (" ++ quotedValues accepted ++ ")" ++ " AND " ++
              (column ++ " NOT IN (" ++ quotedValues rejected ++ ")"))) ++
          ") _cdb_aggregation GROUP BY " ++ column ++ " ORDER BY count DESC") ∧
    quotedValues ["v1", "v2"] = "'v1','v2'" := by
  refine ⟨?_, ?_, ?_, by decide⟩
  · have hf : widgetFilter ⟨WidgetType.aggregation, column⟩ ⟨some accepted, none, min, max⟩ =
        Except.ok (Filter.accept column accepted) := by
      simp [widgetFilter, categoryFilter, ha]
    have h := setFiltersParams_single_aggregation layers layerIndex layer widgetId column _ _
      hl hw hf
    rw [Filter.sql_category (Filter.accept column accepted) layer.sql rfl] at h
    exact h
  · have hf : widgetFilter ⟨WidgetType.aggregation, column⟩ ⟨none, some rejected, min, max⟩ =
        Except.ok (Filter.reject column rejected) := by
      simp [widgetFilter, categoryFilter, hr]
    have h := setFiltersParams_single_aggregation layers layerIndex layer widgetId column _ _
      hl hw hf
    rw [Filter.sql_category (Filter.reject column rejected) layer.sql rfl] at h
    exact h
  · have hf : widgetFilter ⟨WidgetType.aggregation, column⟩
        ⟨some accepted, some rejected, min, max⟩ =
        Except.ok (Filter.acceptReject column accepted rejected) := by
      simp [widgetFilter, categoryFilter, ha, hr]
    have h := setFiltersParams_single_aggregation layers layerIndex layer widgetId column _ _
      hl hw hf
    rw [Filter.sql_category (Filter.acceptReject column accepted rejected) layer.sql rfl] at h
    exact h

/-- C15 at the configuration of the unit test, with `accept: ['Spain']`: the widget query that
the test expects. -/
theorem setFiltersParams_category_sql_witness :
    ∃ filtered w,
      (MapConfig.create [⟨"mapnik", "select * from populated_places_simple_reduced",
        [("adm0name", ⟨WidgetType.aggregation, "adm0name"⟩)]⟩]).setFiltersParams
        ⟨List.replicate 0 [] ++
          [[("adm0name", ⟨some ["Spain"], none, JsVal.undefined, JsVal.undefined⟩)]]⟩ =
          Except.ok filtered ∧
      (filtered.getLayer 0).map Layer.sql =
        some ("SELECT * FROM (" ++ "select * from populated_places_simple_reduced" ++
          ") _cdb_category_filter WHERE " ++ ("adm0name" ++ " IN (" ++ quotedValues ["Spain"] ++
            ")")) ∧
      filtered.getWidget 0 "adm0name" = some w ∧
      w.sql (some (filtered.getLayerFilters 0)) =
        "SELECT count(*) AS count, " ++ "adm0name" ++ " FROM (" ++
          ("SELECT * FROM (" ++ "select * from populated_places_simple_reduced" ++
            ") _cdb_category_filter WHERE " ++ ("adm0name" ++ " IN (" ++
              quotedValues ["Spain"] ++ ")")) ++
          ") _cdb_aggregation GROUP BY " ++ "adm0name" ++ " ORDER BY count DESC" :=
  (setFiltersParams_category_sql
    [⟨"mapnik", "select * from populated_places_simple_reduced",
      [("adm0name", ⟨WidgetType.aggregation, "adm0name"⟩)]⟩] 0
    ⟨"mapnik", "select * from populated_places_simple_reduced",
      [("adm0name", ⟨WidgetType.aggregation, "adm0name"⟩)]⟩ "adm0name" "adm0name"
    ["Spain"] ["Spain"] JsVal.undefined JsVal.undefined rfl (by decide) (by decide)
    (by decide)).1



theorem startsWithText_iff (pattern text : List Char) :
    startsWithText pattern text = true ↔ ∃ rest : List Char, text = pattern ++ rest := by
  induction pattern generalizing text with
  | nil => simp [startsWithText]
  | cons p ps ih =>
    cases text with
    | nil => simp [startsWithText]
    | cons c cs =>
      simp only [startsWithText, Bool.and_eq_true, beq_iff_eq, ih, List.cons_append,
        List.cons.injEq]
      constructor
      · rintro ⟨h1, rest, h2⟩
        exact ⟨rest, h1, h2⟩
      · rintro ⟨rest, h1, h2⟩
        exact ⟨h1, rest, h2⟩

theorem searchText_iff_lists (pattern text : List Char) :
    searchText pattern text = true ↔
      ∃ before after : List Char, text = before ++ pattern ++ after := by
  induction text with
  | nil =>
    simp only [searchText, startsWithText_iff]
    constructor
    · rintro ⟨rest, h⟩
      exact ⟨[], rest, by simpa using h⟩
    · rintro ⟨before, after, h⟩
      have hb : before = [] := by
        cases before with
        | nil => rfl
        | cons a as => simp at h
      subst hb
      exact ⟨after, by simpa using h⟩
  | cons c cs ih =>
    simp only [searchText, Bool.or_eq_true, startsWithText_iff, ih]
    constructor
    · rintro (⟨rest, h⟩ | ⟨before, after, h⟩)
      · exact ⟨[], rest, by simpa using h⟩
      · exact ⟨c :: before, after, by simp [h]⟩
    · rintro ⟨before, after, h⟩
      cases before with
      | nil => exact Or.inl ⟨after, by simpa using h⟩
      | cons a as =>
        simp only [List.cons_append, List.cons.injEq] at h
        exact Or.inr ⟨as, after, by simpa using h.2⟩

theorem searchText_iff (text pattern : String) :
    searchText pattern.toList text.toList = true ↔ Contains text pattern := by
  rw [searchText_iff_lists]
  constructor
  · rintro ⟨before, after, h⟩
    refine ⟨String.mk before, String.mk after, ?_⟩
    apply String.ext
    simpa using h
  · rintro ⟨before, after, h⟩
    refine ⟨before.toList, after.toList, ?_⟩
    rw [h]
    simp

theorem numberText_five_halves : numberText (5 / 2) = "2.5" := by
  have hden : ((5 : ℚ) / 2).den = 2 := by norm_num
  have hnum : ((5 : ℚ) / 2).num = 5 := by norm_num
  simp only [numberText, hden, hnum]
  decide

/-- One valid filter on one histogram widget. While the filter is applied, the query of the
widget with the filter state is the text of the histogram around the wrapped query, and so holds
the filter clause behind the alias `_cdb_range_filter`; after `clearFilters` the widget is the
one of the created configuration, with the same query. -/
theorem setFiltersParams_single_histogram (layers : List Layer) (layerIndex : Nat)
    (layer : Layer) (widgetId column queryBefore queryAfter : String) (args : FilterArgs)
    (filter : Filter) (hl : layers[layerIndex]? = some layer)
    (hw : layer.widgets.lookup widgetId =
      some ⟨WidgetType.histogram queryBefore queryAfter, column⟩)
    (hf : widgetFilter ⟨WidgetType.histogram queryBefore queryAfter, column⟩ args =
      Except.ok filter)
    (halias : filter.alias = "_cdb_range_filter")
    (hfree : ∀ w, (MapConfig.create layers).getWidget layerIndex widgetId = some w →
      ¬ Contains (w.sql none) "_cdb_range_filter") :
    ∃ filtered w,
      (MapConfig.create layers).setFiltersParams
        ⟨List.replicate layerIndex [] ++ [[(widgetId, args)]]⟩ = Except.ok filtered ∧
      filtered.getWidget layerIndex widgetId = some w ∧
      w.sql (some (filtered.getLayerFilters layerIndex)) =
        queryBefore ++ ("SELECT * FROM (" ++ layer.sql ++ ") " ++
          ("_cdb_range_filter WHERE " ++ filter.clause)) ++ queryAfter ∧
      Contains (w.sql (some (filtered.getLayerFilters layerIndex)))
        ("_cdb_range_filter WHERE " ++ filter.clause) ∧
      ∃ cleared, filtered.clearFilters.getWidget layerIndex widgetId = some cleared ∧
        cleared.sql none = queryBefore ++ layer.sql ++ queryAfter ∧
        ¬ Contains (cleared.sql none) "_cdb_range_filter" := by
  have hfound := getWidget_found layers [] layerIndex layer widgetId _ hl hw
  have hsql : LayerWidget.sql ⟨⟨WidgetType.histogram queryBefore queryAfter, column⟩, layer.sql⟩
      (some [(widgetId, filter)]) =
      queryBefore ++ ("SELECT * FROM (" ++ layer.sql ++ ") " ++
        ("_cdb_range_filter WHERE " ++ filter.clause)) ++ queryAfter := by
    simp only [LayerWidget.sql, Widget.query, applyFilters, List.foldl_cons, List.foldl_nil,
      Filter.sql_range filter layer.sql halias]
  refine ⟨⟨layers, List.replicate layerIndex [] ++ [[(widgetId, filter)]]⟩,
    ⟨⟨WidgetType.histogram queryBefore queryAfter, column⟩, layer.sql⟩,
    setFiltersParams_single_ok layers layerIndex layer widgetId _ args filter hl hw hf,
    getWidget_found layers _ layerIndex layer widgetId _ hl hw, ?_, ?_,
    ⟨⟨WidgetType.histogram queryBefore queryAfter, column⟩, layer.sql⟩,
    getWidget_found layers _ layerIndex layer widgetId _ hl hw, rfl, ?_⟩
  · rw [getLayerFilters_single]
    exact hsql
  · rw [getLayerFilters_single, hsql]
    exact ⟨queryBefore ++ "SELECT * FROM (" ++ layer.sql ++ ") ", queryAfter,
      by simp only [String.append_assoc]⟩
  · exact hfree _ hfound

/-- C16: for every histogram widget on column `c` whose query, before any filter is set, does
not itself hold the text `_cdb_range_filter`, a range filter makes the
`sql(getLayerFilters(i))` of the widget contain `_cdb_range_filter WHERE c > <min>` when only a
numeric `min` is given, `_cdb_range_filter WHERE c < <max>` when only a numeric `max` is given,
and `_cdb_range_filter WHERE c BETWEEN <min> AND <max>` when both are given, `<min>` and `<max>`
being the texts of the numbers (a `min` of 0 is a number like any other, with the text `0`, and
so is one that is not an integer, as 2.5); and
after `clearFilters()` on the filtered configuration the `sql()` of the widget does not contain
`_cdb_range_filter`. -/
theorem setFiltersParams_range_sql (layers : List Layer) (layerIndex : Nat) (layer : Layer)
    (widgetId column queryBefore queryAfter : String) (accept reject : Option (List String))
    (min max : ℚ) (other : JsVal)
    (hl : layers[layerIndex]? = some layer)
    (hw : layer.widgets.lookup widgetId =
      some ⟨WidgetType.histogram queryBefore queryAfter, column⟩)
    (hother : ∀ n : ℚ, other ≠ JsVal.num n)
    (hfree : ∀ w, (MapConfig.create layers).getWidget layerIndex widgetId = some w →
      ¬ Contains (w.sql none) "_cdb_range_filter") :
    (∃ filtered w,
      (MapConfig.create layers).setFiltersParams
        ⟨List.replicate layerIndex [] ++
          [[(widgetId, ⟨accept, reject, JsVal.num min, other⟩)]]⟩ = Except.ok filtered ∧
      filtered.getWidget layerIndex widgetId = some w ∧
      Contains (w.sql (some (filtered.getLayerFilters layerIndex)))
        ("_cdb_range_filter WHERE " ++ (column ++ " > " ++ numberText min)) ∧
      ∃ cleared, filtered.clearFilters.getWidget layerIndex widgetId = some cleared ∧
        ¬ Contains (cleared.sql none) "_cdb_range_filter") ∧
    (∃ filtered w,
      (MapConfig.create layers).setFiltersParams
        ⟨List.replicate layerIndex [] ++
          [[(widgetId, ⟨accept, reject, other, JsVal.num max⟩)]]⟩ = Except.ok filtered ∧
      filtered.getWidget layerIndex widgetId = some w ∧
      Contains (w.sql (some (filtered.getLayerFilters layerIndex)))
        ("_cdb_range_filter WHERE " ++ (column ++ " < " ++ numberText max)) ∧
      ∃ cleared, filtered.clearFilters.getWidget layerIndex widgetId = some cleared ∧
        ¬ Contains (cleared.sql none) "_cdb_range_filter") ∧
    (∃ filtered w,
      (MapConfig.create layers).setFiltersParams
        ⟨List.replicate layerIndex [] ++
          [[(widgetId, ⟨accept, reject, JsVal.num min, JsVal.num max⟩)]]⟩ = Except.ok filtered ∧
      filtered.getWidget layerIndex widgetId = some w ∧
      Contains (w.sql (some (filtered.getLayerFilters layerIndex)))
        ("_cdb_range_filter WHERE " ++
          (column ++ " BETWEEN " ++ numberText min ++ " AND " ++ numberText max)) ∧
      ∃ cleared, filtered.clearFilters.getWidget layerIndex widgetId = some cleared ∧
        ¬ Contains (cleared.sql none) "_cdb_range_filter") ∧
    numberText 0 = "0" ∧ numberText 100 = "100" ∧ numberText (5 / 2) = "2.5" := by
  have hnone := (finiteNumber_eq_none other).2 hother
  refine ⟨?_, ?_, ?_, by decide, by decide, numberText_five_halves⟩
  · obtain ⟨filtered, w, h1, h2, -, h4, cleared, h5, -, h7⟩ :=
      setFiltersParams_single_histogram layers layerIndex layer widgetId column queryBefore
        queryAfter ⟨accept, reject, JsVal.num min, other⟩ (Filter.greaterThan column min) hl hw
        (by simp [widgetFilter, rangeFilter, finiteNumber, hnone]) rfl hfree
    exact ⟨filtered, w, h1, h2, h4, cleared, h5, h7⟩
  · obtain ⟨filtered, w, h1, h2, -, h4, cleared, h5, -, h7⟩ :=
      setFiltersParams_single_histogram layers layerIndex layer widgetId column queryBefore
        queryAfter ⟨accept, reject, other, JsVal.num max⟩ (Filter.lessThan column max) hl hw
        (by simp [widgetFilter, rangeFilter, finiteNumber, hnone]) rfl hfree
    exact ⟨filtered, w, h1, h2, h4, cleared, h5, h7⟩
  · obtain ⟨filtered, w, h1, h2, -, h4, cleared, h5, -, h7⟩ :=
      setFiltersParams_single_histogram layers layerIndex layer widgetId column queryBefore
        queryAfter ⟨accept, reject, JsVal.num min, JsVal.num max⟩
        (Filter.between column min max) hl hw
        (by simp [widgetFilter, rangeFilter, finiteNumber]) rfl hfree
    exact ⟨filtered, w, h1, h2, h4, cleared, h5, h7⟩

/-- C16 at the configuration of the unit test, with `min: 0` and no `max`: the query of the
histogram, here between brackets, holds the clause of the test while the filter is applied and
no `_cdb_range_filter` after `clearFilters`. -/
theorem setFiltersParams_range_sql_witness :
    ∃ filtered w,
      (MapConfig.create [⟨"mapnik", "select * from populated_places_simple_reduced",
        [("adm0name", ⟨WidgetType.histogram "(" ")", "adm0name"⟩)]⟩]).setFiltersParams
        ⟨List.replicate 0 [] ++
          [[("adm0name", ⟨none, none, JsVal.num 0, JsVal.undefined⟩)]]⟩ = Except.ok filtered ∧
      filtered.getWidget 0 "adm0name" = some w ∧
      Contains (w.sql (some (filtered.getLayerFilters 0)))
        ("_cdb_range_filter WHERE " ++ ("adm0name" ++ " > " ++ numberText 0)) ∧
      ∃ cleared, filtered.clearFilters.getWidget 0 "adm0name" = some cleared ∧
        ¬ Contains (cleared.sql none) "_cdb_range_filter" :=
  (setFiltersParams_range_sql
    [⟨"mapnik", "select * from populated_places_simple_reduced",
      [("adm0name", ⟨WidgetType.histogram "(" ")", "adm0name"⟩)]⟩] 0
    ⟨"mapnik", "select * from populated_places_simple_reduced",
      [("adm0name", ⟨WidgetType.histogram "(" ")", "adm0name"⟩)]⟩ "adm0name" "adm0name" "(" ")"
    none none 0 100 JsVal.undefined rfl (by decide) (by simp)
    (by
      intro w hw
      have hget : MapConfig.getWidget (MapConfig.create
          [⟨"mapnik", "select * from populated_places_simple_reduced",
            [("adm0name", ⟨WidgetType.histogram "(" ")", "adm0name"⟩)]⟩]) 0 "adm0name" =
          some ⟨⟨WidgetType.histogram "(" ")", "adm0name"⟩,
            "select * from populated_places_simple_reduced"⟩ := by decide
      rw [hget] at hw
      simp only [Option.some.injEq] at hw
      subst hw
      rw [← searchText_iff]
      decide)).1

/-! ## Properties of the tile geometry in double arithmetic -/

theorem cdb_XYZ_Extent_rounded_exact (ts mg bs res : ℚ) (x y : ℤ) (z : ℕ) :
    cdb_XYZ_Extent_rounded (fun q => q) ts mg bs res x y z = cdb_XYZ_Extent ts mg bs res x y z := by
  rfl

theorem roundHalfEven_near (r : ℚ) (m : ℤ) (h : |r - m| < 1 / 2) : roundHalfEven r = m := by
  have h1 := abs_lt.1 h
  by_cases hm : (m : ℚ) ≤ r
  · have hf : Int.floor r = m := by
      rw [Int.floor_eq_iff]
      constructor
      · exact hm
      · linarith [h1.2]
    simp only [roundHalfEven, hf]
    rw [if_pos (by linarith [h1.2])]
  · have hf : Int.floor r = m - 1 := by
      rw [Int.floor_eq_iff]
      push_cast
      constructor
      · linarith [h1.1]
      · push_neg at hm
        linarith
    simp only [roundHalfEven, hf]
    push_cast
    rw [if_neg (by linarith [h1.1]), if_pos (by linarith [h1.1])]
    ring

theorem log_two_eq (q : ℚ) (e : ℤ) (h1 : (2 : ℚ) ^ e ≤ |q|) (h2 : |q| < (2 : ℚ) ^ (e + 1)) :
    Int.log 2 |q| = e := by
  have hpos : 0 < |q| := lt_of_lt_of_le (by positivity) h1
  have ha : e ≤ Int.log 2 |q| :=
    (Int.zpow_le_iff_le_log (by norm_num) hpos).1 (by exact_mod_cast h1)
  have hb : Int.log 2 |q| < e + 1 :=
    (Int.lt_zpow_iff_log_lt (by norm_num) hpos).1 (by exact_mod_cast h2)
  omega

/-- The value of `roundDouble`: with `2^e <= |q| < 2^(e+1)`, the multiple `m * 2^(e-52)` that is
less than half a unit away from `q`. -/
theorem roundDouble_near (q : ℚ) (e m : ℤ) (h1 : (2 : ℚ) ^ e ≤ |q|)
    (h2 : |q| < (2 : ℚ) ^ (e + 1)) (h3 : |q / 2 ^ (e - 52) - m| < 1 / 2) :
    roundDouble q = m * 2 ^ (e - 52) := by
  have hpos : 0 < |q| := lt_of_lt_of_le (by positivity) h1
  have hq : q ≠ 0 := abs_pos.1 hpos
  simp only [roundDouble, hq, if_false, log_two_eq q e h1 h2, roundHalfEven_near _ m h3]

theorem roundDouble_zero : roundDouble 0 = 0 := by simp [roundDouble]

/-- A tie goes to the even significand: `2^53 + 1` lies halfway between the doubles `2^53` and
`2^53 + 2` and becomes `2^53`, and `2^53 + 3` becomes `2^53 + 4`. -/
theorem roundDouble_tie_even :
    roundDouble (2 ^ 53 + 1) = 2 ^ 53 ∧ roundDouble (2 ^ 53 + 3) = 2 ^ 53 + 4 := by
  have he1 : Int.log 2 |(2 ^ 53 + 1 : ℚ)| = 53 :=
    log_two_eq _ 53 (by norm_num [abs_of_pos]) (by norm_num [abs_of_pos])
  have he3 : Int.log 2 |(2 ^ 53 + 3 : ℚ)| = 53 :=
    log_two_eq _ 53 (by norm_num [abs_of_pos]) (by norm_num [abs_of_pos])
  have hf1 : Int.floor ((2 ^ 53 + 1 : ℚ) / 2) = 2 ^ 52 := by
    rw [Int.floor_eq_iff]
    norm_num
  have hf3 : Int.floor ((2 ^ 53 + 3 : ℚ) / 2) = 2 ^ 52 + 1 := by
    rw [Int.floor_eq_iff]
    norm_num
  constructor
  · have hq : (2 ^ 53 + 1 : ℚ) ≠ 0 := by norm_num
    simp only [roundDouble, hq, if_false, he1]
    norm_num [roundHalfEven, hf1]
  · have hq : (2 ^ 53 + 3 : ℚ) ≠ 0 := by norm_num
    simp only [roundDouble, hq, if_false, he3]
    norm_num [roundHalfEven, hf3]

/-- The rounding at a familiar value: one tenth becomes the double `0.1`, that is
`3602879701896397 / 2^55`. -/
theorem roundDouble_one_tenth : roundDouble (1 / 10) = 3602879701896397 / 2 ^ 55 := by
  rw [roundDouble_near _ (-4) 7205759403792794 (by norm_num [abs_of_pos])
    (by norm_num [abs_of_pos]) (by norm_num [abs_of_pos, abs_of_neg])]
  norm_num

/-- The extent of tile `(60, 0, 0)` in double arithmetic, for the default tiling and a buffer of
64 pixels: the tile and the margin are below the spacing of the doubles near 20037508.5, and
all four edges of both boxes fall on the origin shift. -/
theorem cdb_XYZ_Extent_double_at_zoom_60 :
    cdb_XYZ_Extent_double 256 40075017 64 1 0 0 60 =
      { xmin := -40075017 / 2
        ymin := 40075017 / 2
        xmax := -40075017 / 2
        ymax := 40075017 / 2
        b_xmin := -40075017 / 2
        b_ymin := 40075017 / 2
        b_xmax := -40075017 / 2
        b_ymax := 40075017 / 2
        b_size := 32 } := by
  have h0 : roundDouble (40075017 / 256) = 40075017 / 256 := by
    rw [roundDouble_near _ (17) (5378777731301376) (by norm_num [abs_of_pos, abs_of_neg])
      (by norm_num [abs_of_pos, abs_of_neg]) (by norm_num [abs_of_pos, abs_of_neg])]
    norm_num
  have h1 : roundDouble (1) = 1 := by
    rw [roundDouble_near _ (0) (4503599627370496) (by norm_num [abs_of_pos, abs_of_neg])
      (by norm_num [abs_of_pos, abs_of_neg]) (by norm_num [abs_of_pos, abs_of_neg])]
    norm_num
  have h2 : roundDouble (40075017) = 40075017 := by
    rw [roundDouble_near _ (25) (5378777731301376) (by norm_num [abs_of_pos, abs_of_neg])
      (by norm_num [abs_of_pos, abs_of_neg]) (by norm_num [abs_of_pos, abs_of_neg])]
    norm_num
  have h3 : roundDouble (40075017 / 2) = 40075017 / 2 := by
    rw [roundDouble_near _ (24) (5378777731301376) (by norm_num [abs_of_pos, abs_of_neg])
      (by norm_num [abs_of_pos, abs_of_neg]) (by norm_num [abs_of_pos, abs_of_neg])]
    norm_num
  have h4 : roundDouble (1152921504606846976) = 1152921504606846976 := by
    rw [roundDouble_near _ (60) (4503599627370496) (by norm_num [abs_of_pos, abs_of_neg])
      (by norm_num [abs_of_pos, abs_of_neg]) (by norm_num [abs_of_pos, abs_of_neg])]
    norm_num
  have h5 : roundDouble (40075017 / 295147905179352825856) = 40075017 / 295147905179352825856 := by
    rw [roundDouble_near _ (-43) (5378777731301376) (by norm_num [abs_of_pos, abs_of_neg])
      (by norm_num [abs_of_pos, abs_of_neg]) (by norm_num [abs_of_pos, abs_of_neg])]
    norm_num
  have h6 : roundDouble (40075017 / 1152921504606846976) = 40075017 / 1152921504606846976 := by
    rw [roundDouble_near _ (-35) (5378777731301376) (by norm_num [abs_of_pos, abs_of_neg])
      (by norm_num [abs_of_pos, abs_of_neg]) (by norm_num [abs_of_pos, abs_of_neg])]
    norm_num
  have h7 : roundDouble (32) = 32 := by
    rw [roundDouble_near _ (5) (4503599627370496) (by norm_num [abs_of_pos, abs_of_neg])
      (by norm_num [abs_of_pos, abs_of_neg]) (by norm_num [abs_of_pos, abs_of_neg])]
    norm_num
  have h8 : roundDouble (-(40075017 / 2)) = -(40075017 / 2) := by
    rw [roundDouble_near _ (24) (-5378777731301376) (by norm_num [abs_of_pos, abs_of_neg])
      (by norm_num [abs_of_pos, abs_of_neg]) (by norm_num [abs_of_pos, abs_of_neg])]
    norm_num
  have h9 : roundDouble (-(23101674448392485399724279 / 1152921504606846976)) = -(40075017 / 2) := by
    rw [roundDouble_near _ (24) (-5378777731301376) (by norm_num [abs_of_pos, abs_of_neg])
      (by norm_num [abs_of_pos, abs_of_neg]) (by norm_num [abs_of_pos, abs_of_neg])]
    norm_num
  have h10 : roundDouble (23101674448392485399724279 / 1152921504606846976) = 40075017 / 2 := by
    rw [roundDouble_near _ (24) (5378777731301376) (by norm_num [abs_of_pos, abs_of_neg])
      (by norm_num [abs_of_pos, abs_of_neg]) (by norm_num [abs_of_pos, abs_of_neg])]
    norm_num
  have h11 : roundDouble (40075017 / 9223372036854775808) = 40075017 / 9223372036854775808 := by
    rw [roundDouble_near _ (-38) (5378777731301376) (by norm_num [abs_of_pos, abs_of_neg])
      (by norm_num [abs_of_pos, abs_of_neg]) (by norm_num [abs_of_pos, abs_of_neg])]
    norm_num
  have h12 : roundDouble (-(184813395587139883558469385 / 9223372036854775808)) = -(40075017 / 2) := by
    rw [roundDouble_near _ (24) (-5378777731301376) (by norm_num [abs_of_pos, abs_of_neg])
      (by norm_num [abs_of_pos, abs_of_neg]) (by norm_num [abs_of_pos, abs_of_neg])]
    norm_num
  have h13 : roundDouble (184813395587139883558469385 / 9223372036854775808) = 40075017 / 2 := by
    rw [roundDouble_near _ (24) (5378777731301376) (by norm_num [abs_of_pos, abs_of_neg])
      (by norm_num [abs_of_pos, abs_of_neg]) (by norm_num [abs_of_pos, abs_of_neg])]
    norm_num
  have h14 : roundDouble (-(184813395587139883478319351 / 9223372036854775808)) = -(40075017 / 2) := by
    rw [roundDouble_near _ (24) (-5378777731301376) (by norm_num [abs_of_pos, abs_of_neg])
      (by norm_num [abs_of_pos, abs_of_neg]) (by norm_num [abs_of_pos, abs_of_neg])]
    norm_num
  have h15 : roundDouble (184813395587139883478319351 / 9223372036854775808) = 40075017 / 2 := by
    rw [roundDouble_near _ (24) (5378777731301376) (by norm_num [abs_of_pos, abs_of_neg])
      (by norm_num [abs_of_pos, abs_of_neg]) (by norm_num [abs_of_pos, abs_of_neg])]
    norm_num
  simp only [cdb_XYZ_Extent_double, cdb_XYZ_Extent_rounded, cdb_XYZ_Resolution_rounded]
  norm_num [roundDouble_zero, h0, h1, h2, h3, h4, h5, h6, h7, h8, h9, h10, h11, h12, h13, h14, h15]

/-- C9 as stated fails in the double arithmetic of the code: for the default tiling (256 pixel
tiles, extent 40075017), a buffer of 64 pixels and the tile `(z, x, y) = (60, 0, 0)`, the margin
is rounded away, `b_xmin` equals `xmin`, `b_xmax` equals `xmax`, `b_ymin` equals `ymin` and
`b_ymax` equals `ymax`, so that none of the four containments is strict. -/
theorem cdb_XYZ_Extent_double_not_strict :
    (0 : ℚ) < 256 ∧ (0 : ℚ) < 40075017 ∧ (0 : ℚ) < 64 ∧
    (cdb_XYZ_Extent_double 256 40075017 64 1 0 0 60).b_xmin =
      (cdb_XYZ_Extent_double 256 40075017 64 1 0 0 60).xmin ∧
    (cdb_XYZ_Extent_double 256 40075017 64 1 0 0 60).b_xmax =
      (cdb_XYZ_Extent_double 256 40075017 64 1 0 0 60).xmax ∧
    (cdb_XYZ_Extent_double 256 40075017 64 1 0 0 60).b_ymin =
      (cdb_XYZ_Extent_double 256 40075017 64 1 0 0 60).ymin ∧
    (cdb_XYZ_Extent_double 256 40075017 64 1 0 0 60).b_ymax =
      (cdb_XYZ_Extent_double 256 40075017 64 1 0 0 60).ymax ∧
    ¬ ((cdb_XYZ_Extent_double 256 40075017 64 1 0 0 60).b_xmin <
      (cdb_XYZ_Extent_double 256 40075017 64 1 0 0 60).xmin) ∧
    ¬ ((cdb_XYZ_Extent_double 256 40075017 64 1 0 0 60).xmax <
      (cdb_XYZ_Extent_double 256 40075017 64 1 0 0 60).b_xmax) ∧
    ¬ ((cdb_XYZ_Extent_double 256 40075017 64 1 0 0 60).b_ymax <
      (cdb_XYZ_Extent_double 256 40075017 64 1 0 0 60).ymax) ∧
    ¬ ((cdb_XYZ_Extent_double 256 40075017 64 1 0 0 60).ymin <
      (cdb_XYZ_Extent_double 256 40075017 64 1 0 0 60).b_ymin) := by
  rw [cdb_XYZ_Extent_double_at_zoom_60]
  norm_num

end Windshaft
